import Mathlib

/-
Shallow embedding of `kafka_consumer/datadog_checks/kafka_consumer/legacy_0_10_2.py`
(class `LegacyKafkaCheck_0_10_2`), the consumer-group lag computation engine.

Python dictionaries are modelled as association lists in insertion order with
unique keys; Python sets as lists with first-occurrence-kept insertion; the
side effects of a check cycle (gauges, events, log records, the client
metadata refresh) are collected into an explicit trace; Python exceptions are
explicit `PyErr` values carried next to the trace produced before the raise.
-/

/-- Python dictionary: association list in insertion order with unique keys. -/
abbrev Dict (α β : Type) := List (α × β)

/-- Dictionary lookup, `d[k]` / `k in d`. -/
def dlookup {α β : Type} [DecidableEq α] : Dict α β → α → Option β
  | [], _ => none
  | (k, v) :: rest, a => if k = a then some v else dlookup rest a

/-- Dictionary assignment `d[k] = v`: replace in place if present, else append. -/
def dinsert {α β : Type} [DecidableEq α] : Dict α β → α → β → Dict α β
  | [], a, b => [(a, b)]
  | (k, v) :: rest, a, b => if k = a then (a, b) :: rest else (k, v) :: dinsert rest a b

/-- Keys of a dictionary. -/
def dkeys {α β : Type} (d : Dict α β) : List α := d.map Prod.fst

/-- Predicate: the dictionary has no duplicate keys (the Python invariant). -/
abbrev nodupKeys {α β : Type} (d : Dict α β) : Prop := (d.map Prod.fst).Nodup

/-- Set insertion keeping first occurrence (models adding to a Python set). -/
def sinsert {α : Type} [DecidableEq α] (xs : List α) (x : α) : List α :=
  if x ∈ xs then xs else xs ++ [x]

/-- Set union, `s.update(t)` / `s.union(t)` on Python sets. -/
def sunion {α : Type} [DecidableEq α] (xs ys : List α) : List α := ys.foldl sinsert xs

/-- Set construction `set(xs)`: deduplicate keeping first occurrences. -/
def sdedup {α : Type} [DecidableEq α] (xs : List α) : List α := sunion [] xs

/-- Decimal digit characters of a natural number, structurally recursive on a fuel
bound so that it evaluates inside the kernel. -/
def natCharsGo (fuel n : Nat) : List Char :=
  match fuel with
  | 0 => []
  | fuel + 1 =>
      if n < 10 then [Char.ofNat (48 + n)]
      else natCharsGo fuel (n / 10) ++ [Char.ofNat (48 + n % 10)]

/-- Decimal digit characters of a natural number (big-endian). -/
def natChars (n : Nat) : List Char := natCharsGo (n + 1) n

/-- Python `str(i)` for an integer: optional minus sign then decimal digits. -/
def intStr (i : Int) : String :=
  if i < 0 then String.mk ('-' :: natChars (-i).toNat) else String.mk (natChars i.toNat)

/-- Whitespace test used when trimming the argument of Python `int`. -/
def isWs (c : Char) : Bool := c = ' ' || c = '\t' || c = '\n' || c = '\r'

/-- Strip leading and trailing whitespace from a character list. -/
def pyTrim (cs : List Char) : List Char :=
  ((cs.dropWhile isWs).reverse.dropWhile isWs).reverse

/-- Value of a nonempty all-digit character list, `none` on any other shape. -/
def digitsToNatGo : List Char → Nat → Option Nat
  | [], acc => some acc
  | c :: rest, acc =>
      if c.isDigit then digitsToNatGo rest (acc * 10 + (c.toNat - 48)) else none

/-- Value of a nonempty all-digit character list, `none` on any other shape. -/
def digitsToNat : List Char → Option Nat
  | [] => none
  | c :: rest => digitsToNatGo (c :: rest) 0

/-- Python `int(s)`: strip whitespace, optional sign, decimal digits; `none` models
the `ValueError` raised on any other shape. -/
def pyInt (s : String) : Option Int :=
  match pyTrim s.data with
  | '-' :: rest => (digitsToNat rest).map (fun n => -(n : Int))
  | '+' :: rest => (digitsToNat rest).map (fun n => (n : Int))
  | cs => (digitsToNat cs).map (fun n => (n : Int))

/-- Python exceptions that the check can raise or observe. -/
inductive PyErr
  | assertionError
  | configurationError (msg : String)
  | typeError (msg : String)
  | valueError (msg : String)
  | indexError
  | kafkaError (msg : String)
  deriving DecidableEq

/-- Observable side effects of one check cycle, in emission order: metric gauges,
events sent to the event stream, log records at their level, and the broker
client metadata refresh performed by `check`. -/
inductive Effect
  | gauge (name : String) (value : Int) (tags : List String)
  | event (title : String) (text : String) (tags : List String)
      (eventType : String) (aggregationKey : String) (severity : String)
  | logWarn (msg : String)
  | logInfo (msg : String)
  | logDebug (msg : String)
  | logException (msg : String)
  | netMetadataRefresh
  deriving DecidableEq

abbrev TP := String × Int

abbrev GTP := String × String × Int

/-- Tags attached to consumer metrics for one (group, topic, partition):
`['topic:%s' % topic, 'partition:%s' % partition, 'consumer_group:%s' % consumer_group]`
extended with the caller-supplied tags (source line 300-301). -/
def consumer_group_tags (g t : String) (p : Int) (tags : List String) : List String :=
  ("topic:" ++ t) :: ("partition:" ++ intStr p) :: ("consumer_group:" ++ g) :: tags

/-- Title of the negative-lag event (source line 307). -/
def negLagTitle (g : String) : String := "Negative consumer lag for group: " ++ g ++ "."

/-- Body of the negative-lag event (source lines 308-313). -/
def negLagMessage (g t : String) (p : Int) : String :=
  "Consumer lag for consumer group: " ++ g ++ ", topic: " ++ t ++ ", partition: "
    ++ intStr p ++ " is negative. This should never happen."

/-- Aggregation key of the negative-lag event, `'{}:{}:{}'.format(group, topic, partition)`
(source line 314). -/
def negLagKey (g t : String) (p : Int) : String := g ++ ":" ++ t ++ ":" ++ intStr p

/-- Log line for a consumer offset whose partition is absent from the highwater map
(source lines 283-288). -/
def missingHwMsg (g t : String) (p : Int) : String :=
  "[" ++ g ++ "] topic: " ++ t ++ " partition: " ++ intStr p
    ++ " was not available in the consumer - skipping consumer submission"

/-- Second log line when the skipped partition is not in the leaderless list either
(source lines 289-297). -/
def notInClusterMsg (g t : String) (p : Int) : String :=
  "Consumer group: " ++ g ++ " has offsets for topic: " ++ t ++ " partition: "
    ++ intStr p ++ ", but that topic partition doesn't actually exist in the cluster."

/-- Build the event dict passed to `self.event` (source `_send_event`, lines 481-493;
the wall-clock timestamp and constant source type are not modelled). -/
def send_event (title text : String) (tags : List String)
    (eventType aggregationKey severity : String) : Effect :=
  Effect.event title text tags eventType aggregationKey severity

/-- Body of the reporting loop of `_report_consumer_metrics` (source lines 280-318)
for a single entry `(consumer_group, topic, partition) -> consumer_offset`: skip with
warnings when the partition has no highwater mark, otherwise emit the consumer offset
gauge, compute `lag = highwater - offset`, emit the anomaly event and a debug log when
the lag is negative, and always emit the lag gauge. -/
def report_one (highwater_offsets : Dict TP Int) (unled : List TP) (tags : List String)
    (g t : String) (p : Int) (c : Int) : List Effect :=
  match dlookup highwater_offsets (t, p) with
  | none =>
      Effect.logWarn (missingHwMsg g t p) ::
        (if (t, p) ∈ unled then [] else [Effect.logWarn (notInClusterMsg g t p)])
  | some h =>
      let ctags := consumer_group_tags g t p tags
      let lag := h - c
      Effect.gauge "kafka.consumer_offset" c ctags ::
        ((if lag < 0 then
            [send_event (negLagTitle g) (negLagMessage g t p) ctags "consumer_lag"
               (negLagKey g t p) "error",
             Effect.logDebug (negLagMessage g t p)]
          else []) ++ [Effect.gauge "kafka.consumer_lag" lag ctags])

/-- Source `_report_consumer_metrics` (lines 275-318): the reporting loop over the
consumer offsets dictionary. -/
def report_consumer_metrics (highwater_offsets : Dict TP Int) :
    Dict GTP Int → List TP → List String → List Effect
  | [], _, _ => []
  | ((g, t, p), c) :: rest, unled, tags =>
      report_one highwater_offsets unled tags g t p c
        ++ report_consumer_metrics highwater_offsets rest unled tags

/-- Recognize a `kafka.consumer_lag` gauge carrying exactly the given tag list. -/
def isLagGaugeTagged (tg : List String) : Effect → Bool
  | .gauge n _ t => n == "kafka.consumer_lag" && t == tg
  | _ => false

/-- Recognize an event carrying exactly the given tag list. -/
def isEventTagged (tg : List String) : Effect → Bool
  | .event _ _ t _ _ _ => t == tg
  | _ => false

lemma natCharsGo_fuel : ∀ n f1 f2 : Nat, n < f1 → n < f2 → natCharsGo f1 n = natCharsGo f2 n := by
  intro n
  induction n using Nat.strong_induction_on with
  | _ n ih =>
    intro f1 f2 h1 h2
    match f1, f2 with
    | a + 1, b + 1 =>
      by_cases h : n < 10
      · simp [natCharsGo, h]
      · have hlt : n / 10 < n := Nat.div_lt_self (by omega) (by omega)
        simp only [natCharsGo, if_neg h]
        rw [ih (n / 10) hlt a b (by omega) (by omega)]

lemma natChars_lt (n : Nat) (h : n < 10) : natChars n = [Char.ofNat (48 + n)] := by
  unfold natChars natCharsGo; simp [h]

lemma natChars_ge (n : Nat) (h : ¬ n < 10) :
    natChars n = natChars (n / 10) ++ [Char.ofNat (48 + n % 10)] := by
  unfold natChars
  have hlt : n / 10 < n := Nat.div_lt_self (by omega) (by omega)
  conv_lhs => rw [natCharsGo]
  simp only [if_neg h]
  rw [natCharsGo_fuel (n / 10) n (n / 10 + 1) (by omega) (by omega)]

lemma digitChar_inj : ∀ a < 10, ∀ b < 10,
    Char.ofNat (48 + a) = Char.ofNat (48 + b) → a = b := by decide

lemma digitChar_ne_dash : ∀ a < 10, Char.ofNat (48 + a) ≠ '-' := by decide

lemma natChars_ne_nil (n : Nat) : natChars n ≠ [] := by
  by_cases h : n < 10
  · rw [natChars_lt n h]; simp
  · rw [natChars_ge n h]; simp

lemma natChars_digits (n : Nat) : ∀ c ∈ natChars n, ∃ d, d < 10 ∧ c = Char.ofNat (48 + d) := by
  induction n using Nat.strong_induction_on with
  | _ n ih =>
    by_cases h : n < 10
    · rw [natChars_lt n h]
      intro c hc
      simp only [List.mem_singleton] at hc
      exact ⟨n, h, hc⟩
    · rw [natChars_ge n h]
      intro c hc
      rcases List.mem_append.mp hc with h1 | h2
      · exact ih (n / 10) (Nat.div_lt_self (by omega) (by omega)) c h1
      · simp only [List.mem_singleton] at h2
        exact ⟨n % 10, Nat.mod_lt _ (by omega), h2⟩

lemma natChars_inj : ∀ m n : Nat, natChars m = natChars n → m = n := by
  intro m
  induction m using Nat.strong_induction_on with
  | _ m ih =>
    intro n h
    by_cases hm : m < 10 <;> by_cases hn : n < 10
    · rw [natChars_lt m hm, natChars_lt n hn] at h
      exact digitChar_inj m hm n hn (by simpa using h)
    · rw [natChars_lt m hm, natChars_ge n hn] at h
      have hlen := congrArg List.length h
      have hp : 0 < (natChars (n / 10)).length :=
        List.length_pos.mpr (natChars_ne_nil (n / 10))
      simp only [List.length_singleton, List.length_append] at hlen
      omega
    · rw [natChars_ge m hm, natChars_lt n hn] at h
      have hlen := congrArg List.length h
      have hp : 0 < (natChars (m / 10)).length :=
        List.length_pos.mpr (natChars_ne_nil (m / 10))
      simp only [List.length_singleton, List.length_append] at hlen
      omega
    · rw [natChars_ge m hm, natChars_ge n hn] at h
      have hr := congrArg List.reverse h
      simp only [List.reverse_append, List.reverse_singleton, List.singleton_append] at hr
      have hhead : Char.ofNat (48 + m % 10) = Char.ofNat (48 + n % 10) := (List.cons.injEq _ _ _ _ ▸ hr).1
      have htail : (natChars (m / 10)).reverse = (natChars (n / 10)).reverse :=
        (List.cons.injEq _ _ _ _ ▸ hr).2
      have hmod : m % 10 = n % 10 :=
        digitChar_inj (m % 10) (Nat.mod_lt _ (by omega)) (n % 10) (Nat.mod_lt _ (by omega)) hhead
      have hdiv : m / 10 = n / 10 :=
        ih (m / 10) (Nat.div_lt_self (by omega) (by omega)) (n / 10)
          (List.reverse_injective htail)
      omega

lemma intStr_inj : Function.Injective intStr := by
  intro i j h
  unfold intStr at h
  by_cases hi : i < 0 <;> by_cases hj : j < 0 <;>
    simp only [hi, hj, if_true, if_false, reduceIte] at h
  · have hd : '-' :: natChars (-i).toNat = '-' :: natChars (-j).toNat :=
      congrArg String.data h
    have : (-i).toNat = (-j).toNat := natChars_inj _ _ (List.tail_eq_of_cons_eq hd)
    omega
  · exfalso
    have hd : '-' :: natChars (-i).toNat = natChars j.toNat := congrArg String.data h
    have hmem : '-' ∈ natChars j.toNat := by rw [← hd]; exact List.mem_cons_self _ _
    obtain ⟨d, hdlt, hc⟩ := natChars_digits _ _ hmem
    exact digitChar_ne_dash d hdlt hc.symm
  · exfalso
    have hd : natChars i.toNat = '-' :: natChars (-j).toNat := congrArg String.data h
    have hmem : '-' ∈ natChars i.toNat := by rw [hd]; exact List.mem_cons_self _ _
    obtain ⟨d, hdlt, hc⟩ := natChars_digits _ _ hmem
    exact digitChar_ne_dash d hdlt hc.symm
  · have hd : natChars i.toNat = natChars j.toNat := congrArg String.data h
    have : i.toNat = j.toNat := natChars_inj _ _ hd
    omega

lemma string_append_left_cancel {pre a b : String} (h : pre ++ a = pre ++ b) : a = b := by
  have h2 : (pre ++ a).data = (pre ++ b).data := congrArg String.data h
  simp only [String.data_append] at h2
  exact String.ext (List.append_cancel_left h2)

lemma consumer_group_tags_inj {g₁ t₁ g₂ t₂ : String} {p₁ p₂ : Int} {tags : List String}
    (h : consumer_group_tags g₁ t₁ p₁ tags = consumer_group_tags g₂ t₂ p₂ tags) :
    g₁ = g₂ ∧ t₁ = t₂ ∧ p₁ = p₂ := by
  unfold consumer_group_tags at h
  simp only [List.cons.injEq] at h
  obtain ⟨ht, hp, hg, -⟩ := h
  exact ⟨string_append_left_cancel hg, string_append_left_cancel ht,
    intStr_inj (string_append_left_cancel hp)⟩

lemma report_one_filter_lag_ne {hw : Dict TP Int} {unled : List TP} {tags tg : List String}
    {g t : String} {p c : Int}
    (h : consumer_group_tags g t p tags ≠ tg) :
    (report_one hw unled tags g t p c).filter (isLagGaugeTagged tg) = [] := by
  unfold report_one
  have htg : (consumer_group_tags g t p tags == tg) = false := beq_eq_false_iff_ne.mpr h
  cases hl : dlookup hw (t, p) with
  | none => split <;> simp_all [isLagGaugeTagged]
  | some hwv =>
      by_cases hneg : hwv - c < 0 <;>
        simp [isLagGaugeTagged, hneg, send_event, htg]

lemma report_one_filter_lag_eq {hw : Dict TP Int} {unled : List TP} {tags : List String}
    {g t : String} {p c H : Int} (hH : dlookup hw (t, p) = some H) :
    (report_one hw unled tags g t p c).filter
      (isLagGaugeTagged (consumer_group_tags g t p tags)) =
      [Effect.gauge "kafka.consumer_lag" (H - c) (consumer_group_tags g t p tags)] := by
  unfold report_one
  rw [hH]
  by_cases hneg : H - c < 0 <;> simp [isLagGaugeTagged, hneg, send_event]

lemma report_one_filter_event_ne {hw : Dict TP Int} {unled : List TP} {tags tg : List String}
    {g t : String} {p c : Int}
    (h : consumer_group_tags g t p tags ≠ tg) :
    (report_one hw unled tags g t p c).filter (isEventTagged tg) = [] := by
  unfold report_one
  have htg : (consumer_group_tags g t p tags == tg) = false := beq_eq_false_iff_ne.mpr h
  cases hl : dlookup hw (t, p) with
  | none => split <;> simp_all [isEventTagged]
  | some hwv =>
      by_cases hneg : hwv - c < 0 <;>
        simp [isEventTagged, hneg, send_event, htg]

lemma report_one_filter_event_neg {hw : Dict TP Int} {unled : List TP} {tags : List String}
    {g t : String} {p c H : Int} (hH : dlookup hw (t, p) = some H) (hneg : H - c < 0) :
    (report_one hw unled tags g t p c).filter
      (isEventTagged (consumer_group_tags g t p tags)) =
      [Effect.event (negLagTitle g) (negLagMessage g t p) (consumer_group_tags g t p tags)
        "consumer_lag" (negLagKey g t p) "error"] := by
  unfold report_one
  rw [hH]
  simp [isEventTagged, hneg, send_event]

lemma report_filter_lag_absent {hw : Dict TP Int} {unled : List TP} {tags : List String}
    {g t : String} {p : Int} (coffs : Dict GTP Int)
    (habs : ((g, t, p) : GTP) ∉ dkeys coffs) :
    (report_consumer_metrics hw coffs unled tags).filter
      (isLagGaugeTagged (consumer_group_tags g t p tags)) = [] := by
  induction coffs with
  | nil => rfl
  | cons e rest ih =>
    obtain ⟨⟨g', t', p'⟩, c'⟩ := e
    simp only [dkeys, List.map_cons, List.mem_cons, not_or] at habs
    obtain ⟨hne, habs'⟩ := habs
    have htags : consumer_group_tags g' t' p' tags ≠ consumer_group_tags g t p tags := by
      intro he
      obtain ⟨h1, h2, h3⟩ := consumer_group_tags_inj he
      exact hne (by rw [h1, h2, h3])
    rw [report_consumer_metrics, List.filter_append,
      report_one_filter_lag_ne htags, List.nil_append]
    exact ih (by simpa [dkeys] using habs')

lemma report_filter_event_absent {hw : Dict TP Int} {unled : List TP} {tags : List String}
    {g t : String} {p : Int} (coffs : Dict GTP Int)
    (habs : ((g, t, p) : GTP) ∉ dkeys coffs) :
    (report_consumer_metrics hw coffs unled tags).filter
      (isEventTagged (consumer_group_tags g t p tags)) = [] := by
  induction coffs with
  | nil => rfl
  | cons e rest ih =>
    obtain ⟨⟨g', t', p'⟩, c'⟩ := e
    simp only [dkeys, List.map_cons, List.mem_cons, not_or] at habs
    obtain ⟨hne, habs'⟩ := habs
    have htags : consumer_group_tags g' t' p' tags ≠ consumer_group_tags g t p tags := by
      intro he
      obtain ⟨h1, h2, h3⟩ := consumer_group_tags_inj he
      exact hne (by rw [h1, h2, h3])
    rw [report_consumer_metrics, List.filter_append,
      report_one_filter_event_ne htags, List.nil_append]
    exact ih (by simpa [dkeys] using habs')

lemma report_filter_lag_present {hw : Dict TP Int} {unled : List TP} {tags : List String}
    {g t : String} {p H C : Int} (coffs : Dict GTP Int)
    (hnd : nodupKeys coffs)
    (hH : dlookup hw (t, p) = some H) (hC : dlookup coffs (g, t, p) = some C) :
    (report_consumer_metrics hw coffs unled tags).filter
      (isLagGaugeTagged (consumer_group_tags g t p tags)) =
      [Effect.gauge "kafka.consumer_lag" (H - C) (consumer_group_tags g t p tags)] := by
  induction coffs with
  | nil => simp [dlookup] at hC
  | cons e rest ih =>
    obtain ⟨⟨g', t', p'⟩, c'⟩ := e
    have hnd' : (dkeys rest).Nodup ∧ ((g', t', p') : GTP) ∉ dkeys rest := by
      have := hnd
      simp only [nodupKeys, List.map_cons, List.nodup_cons] at this
      exact ⟨this.2, this.1⟩
    rw [report_consumer_metrics, List.filter_append]
    by_cases hk : ((g', t', p') : GTP) = ((g, t, p) : GTP)
    · simp only [Prod.mk.injEq] at hk
      obtain ⟨rfl, rfl, rfl⟩ := hk
      have hc' : c' = C := by
        rw [dlookup] at hC; simp at hC; exact hC
      subst hc'
      rw [report_one_filter_lag_eq hH,
        report_filter_lag_absent rest (by simpa [dkeys] using hnd'.2), List.append_nil]
    · have htags : consumer_group_tags g' t' p' tags ≠ consumer_group_tags g t p tags := by
        intro he
        obtain ⟨h1, h2, h3⟩ := consumer_group_tags_inj he
        exact hk (by rw [h1, h2, h3])
      have hC' : dlookup rest ((g, t, p) : GTP) = some C := by
        rw [dlookup] at hC; simp [hk] at hC; exact hC
      rw [report_one_filter_lag_ne htags, List.nil_append]
      exact ih hnd'.1 hC'

lemma report_filter_event_present {hw : Dict TP Int} {unled : List TP} {tags : List String}
    {g t : String} {p H C : Int} (coffs : Dict GTP Int)
    (hnd : nodupKeys coffs)
    (hH : dlookup hw (t, p) = some H) (hC : dlookup coffs (g, t, p) = some C)
    (hneg : H - C < 0) :
    (report_consumer_metrics hw coffs unled tags).filter
      (isEventTagged (consumer_group_tags g t p tags)) =
      [Effect.event (negLagTitle g) (negLagMessage g t p) (consumer_group_tags g t p tags)
        "consumer_lag" (negLagKey g t p) "error"] := by
  induction coffs with
  | nil => simp [dlookup] at hC
  | cons e rest ih =>
    obtain ⟨⟨g', t', p'⟩, c'⟩ := e
    have hnd' : (dkeys rest).Nodup ∧ ((g', t', p') : GTP) ∉ dkeys rest := by
      have := hnd
      simp only [nodupKeys, List.map_cons, List.nodup_cons] at this
      exact ⟨this.2, this.1⟩
    rw [report_consumer_metrics, List.filter_append]
    by_cases hk : ((g', t', p') : GTP) = ((g, t, p) : GTP)
    · simp only [Prod.mk.injEq] at hk
      obtain ⟨rfl, rfl, rfl⟩ := hk
      have hc' : c' = C := by
        rw [dlookup] at hC; simp at hC; exact hC
      subst hc'
      rw [report_one_filter_event_neg hH hneg,
        report_filter_event_absent rest (by simpa [dkeys] using hnd'.2), List.append_nil]
    · have htags : consumer_group_tags g' t' p' tags ≠ consumer_group_tags g t p tags := by
        intro he
        obtain ⟨h1, h2, h3⟩ := consumer_group_tags_inj he
        exact hk (by rw [h1, h2, h3])
      have hC' : dlookup rest ((g, t, p) : GTP) = some C := by
        rw [dlookup] at hC; simp [hk] at hC; exact hC
      rw [report_one_filter_event_ne htags, List.nil_append]
      exact ih hnd'.1 hC'

lemma report_one_lag_gauge {hw : Dict TP Int} {unled : List TP} {tags tg : List String}
    {g t : String} {p c v : Int}
    (hmem : Effect.gauge "kafka.consumer_lag" v tg ∈ report_one hw unled tags g t p c) :
    tg = consumer_group_tags g t p tags ∧ ∃ h, dlookup hw (t, p) = some h ∧ v = h - c := by
  unfold report_one at hmem
  cases hl : dlookup hw (t, p) with
  | none =>
      rw [hl] at hmem
      simp only [List.mem_cons, List.mem_singleton] at hmem
      rcases hmem with h1 | h2
      · exact absurd h1 (by simp)
      · split at h2 <;> simp_all
  | some hwv =>
      rw [hl] at hmem
      by_cases hneg : hwv - c < 0 <;>
        simp only [hneg, if_true, if_false, reduceIte, send_event, List.mem_cons,
          List.mem_append, List.mem_singleton, List.cons_append, List.nil_append] at hmem
      · rcases hmem with h1 | h2 | h3 | h4 <;> simp_all
      · rcases hmem with h1 | h2 <;> simp_all

lemma report_lag_gauge_has_hw {hw : Dict TP Int} {unled : List TP} {tags tg : List String}
    {v : Int} (coffs : Dict GTP Int)
    (hmem : Effect.gauge "kafka.consumer_lag" v tg ∈
      report_consumer_metrics hw coffs unled tags) :
    ∃ g t p, tg = consumer_group_tags g t p tags ∧ ∃ h, dlookup hw (t, p) = some h := by
  induction coffs with
  | nil => simp [report_consumer_metrics] at hmem
  | cons e rest ih =>
    obtain ⟨⟨g', t', p'⟩, c'⟩ := e
    rw [report_consumer_metrics, List.mem_append] at hmem
    rcases hmem with h1 | h2
    · obtain ⟨htg, h, hh, -⟩ := report_one_lag_gauge h1
      exact ⟨g', t', p', htg, h, hh⟩
    · exact ih h2

/-- C1: for every (group, topic, partition) whose partition has a recorded high-water
mark `H ≥ 0` and whose committed offset is `C ≥ 0`, the reported `kafka.consumer_lag`
gauge for that triple is exactly one gauge whose value is `H - C`, with no clamping
and no rounding, including when the result is zero or negative. -/
theorem c1_consumer_lag_exact
    (highwater_offsets : Dict TP Int) (consumer_offsets : Dict GTP Int)
    (unled : List TP) (tags : List String) (g t : String) (p H C : Int)
    (hnd : nodupKeys consumer_offsets)
    (hH : dlookup highwater_offsets (t, p) = some H)
    (hC : dlookup consumer_offsets (g, t, p) = some C)
    (hH0 : 0 ≤ H) (hC0 : 0 ≤ C) :
    (report_consumer_metrics highwater_offsets consumer_offsets unled tags).filter
      (isLagGaugeTagged (consumer_group_tags g t p tags)) =
      [Effect.gauge "kafka.consumer_lag" (H - C) (consumer_group_tags g t p tags)] :=
  report_filter_lag_present consumer_offsets hnd hH hC

/-- Witness for C1: highwater 150, committed offset 100 for (g1, t, 0) give exactly
one lag gauge of value 50. -/
theorem c1_consumer_lag_exact_witness :
    nodupKeys ([(("g1", "t", 0), 100)] : Dict GTP Int) ∧
    dlookup ([(("t", 0), 150)] : Dict TP Int) ("t", 0) = some 150 ∧
    dlookup ([(("g1", "t", 0), 100)] : Dict GTP Int) ("g1", "t", 0) = some 100 ∧
    (report_consumer_metrics [(("t", 0), 150)] [(("g1", "t", 0), 100)] [] []).filter
      (isLagGaugeTagged (consumer_group_tags "g1" "t" 0 [])) =
      [Effect.gauge "kafka.consumer_lag" (150 - 100) (consumer_group_tags "g1" "t" 0 [])] :=
  ⟨by decide, by decide, by decide,
    c1_consumer_lag_exact [(("t", 0), 150)] [(("g1", "t", 0), 100)] [] [] "g1" "t" 0 150 100
      (by decide) (by decide) (by decide) (by decide) (by decide)⟩

/-- C2 (amended): within one source's reporting pass over its committed offsets, a
negative computed lag for (group, topic, partition) yields exactly one anomaly event
for that triple in that pass, with deduplication key `group:topic:partition`, severity
"error", a title naming the group, a body naming group/topic/partition, and the same
tag set as the corresponding lag gauge; the lag gauge carrying the negative value is
still emitted. When both offset sources are enabled the cycle runs one such pass per
source, so a triple negative in both sources gets one event per source. -/
theorem c2_negative_lag_event_per_pass
    (highwater_offsets : Dict TP Int) (consumer_offsets : Dict GTP Int)
    (unled : List TP) (tags : List String) (g t : String) (p H C : Int)
    (hnd : nodupKeys consumer_offsets)
    (hH : dlookup highwater_offsets (t, p) = some H)
    (hC : dlookup consumer_offsets (g, t, p) = some C)
    (hneg : H - C < 0) :
    (report_consumer_metrics highwater_offsets consumer_offsets unled tags).filter
      (isEventTagged (consumer_group_tags g t p tags)) =
      [Effect.event (negLagTitle g) (negLagMessage g t p) (consumer_group_tags g t p tags)
        "consumer_lag" (negLagKey g t p) "error"] ∧
    Effect.gauge "kafka.consumer_lag" (H - C) (consumer_group_tags g t p tags) ∈
      report_consumer_metrics highwater_offsets consumer_offsets unled tags := by
  refine ⟨report_filter_event_present consumer_offsets hnd hH hC hneg, ?_⟩
  have hf := @report_filter_lag_present highwater_offsets unled tags g t p H C
    consumer_offsets hnd hH hC
  have hm : Effect.gauge "kafka.consumer_lag" (H - C) (consumer_group_tags g t p tags) ∈
      (report_consumer_metrics highwater_offsets consumer_offsets unled tags).filter
        (isLagGaugeTagged (consumer_group_tags g t p tags)) := by
    rw [hf]; exact List.mem_singleton_self _
  exact List.mem_of_mem_filter hm

/-- Witness for the amended C2: highwater 150, committed offset 160 give lag -10, one
event keyed g1:t:0 and the lag gauge of value -10. -/
theorem c2_negative_lag_event_per_pass_witness :
    nodupKeys ([(("g1", "t", 0), 160)] : Dict GTP Int) ∧
    dlookup ([(("t", 0), 150)] : Dict TP Int) ("t", 0) = some 150 ∧
    dlookup ([(("g1", "t", 0), 160)] : Dict GTP Int) ("g1", "t", 0) = some 160 ∧
    ((150 : Int) - 160 < 0) ∧
    ((report_consumer_metrics [(("t", 0), 150)] [(("g1", "t", 0), 160)] [] ["source:zk"]).filter
      (isEventTagged (consumer_group_tags "g1" "t" 0 ["source:zk"])) =
      [Effect.event (negLagTitle "g1") (negLagMessage "g1" "t" 0)
        (consumer_group_tags "g1" "t" 0 ["source:zk"]) "consumer_lag"
        (negLagKey "g1" "t" 0) "error"] ∧
     Effect.gauge "kafka.consumer_lag" (150 - 160) (consumer_group_tags "g1" "t" 0 ["source:zk"]) ∈
      report_consumer_metrics [(("t", 0), 150)] [(("g1", "t", 0), 160)] [] ["source:zk"]) :=
  ⟨by decide, by decide, by decide, by decide,
    c2_negative_lag_event_per_pass [(("t", 0), 150)] [(("g1", "t", 0), 160)] [] ["source:zk"]
      "g1" "t" 0 150 160 (by decide) (by decide) (by decide) (by decide)⟩

/-- Broker answer for one partition entry of an offset response, as classified by
`kafka.errors.for_code` in `_process_highwater_offsets` (source lines 184-215); the
offsets list is carried on success. -/
inductive HWOutcome
  | noError (offsets : List Int)
  | notLeaderForPartition
  | unknownTopicOrPartition
  | otherError (code : Int)
  deriving DecidableEq

/-- Warning logged for a "not leader for partition" error (source lines 191-199). -/
def notLeaderMsg (t : String) (p : Int) : String :=
  "Kafka broker returned NotLeaderForPartitionError (error_code 6) for topic " ++ t
    ++ ", partition: " ++ intStr p ++ ". This should only happen if the broker that was "
    ++ "the partition leader when kafka_admin_client last fetched metadata is no longer the leader."

/-- Warning logged for an "unknown topic or partition" error (source lines 202-210). -/
def unknownTopicMsg (t : String) (p : Int) : String :=
  "Kafka broker returned UnknownTopicOrPartitionError (error_code 3) for topic: " ++ t
    ++ ", partition: " ++ intStr p ++ ". This should only happen if the topic is currently "
    ++ "being deleted or the check configuration lists non-existent topic partitions."

/-- Message of the exception raised on any other error code (source lines 212-215). -/
def unexpectedHwErrMsg (t : String) (p : Int) : String :=
  "Unexpected error encountered while attempting to fetch the highwater offsets for topic: "
    ++ t ++ ", partition: " ++ intStr p ++ "."

/-- Flatten a response into the order in which the nested loops of
`_process_highwater_offsets` visit its (topic, partition, outcome) entries. -/
def flattenResponse : List (String × List (Int × HWOutcome)) → List (String × Int × HWOutcome)
  | [] => []
  | (t, ps) :: rest => ps.map (fun pe => (t, pe.1, pe.2)) ++ flattenResponse rest

/-- Processing loop of `_process_highwater_offsets` (source lines 181-215) with explicit
accumulators: on success record `offsets[0]` (IndexError on an empty offsets list), on
"not leader" log a warning and append to the leaderless list, on "unknown topic or
partition" log a warning only, and on any other error code raise. -/
def processHWGo : List (String × Int × HWOutcome) → Dict TP Int → List TP → List Effect →
    List Effect × Except PyErr (Dict TP Int × List TP)
  | [], hw, unled, effs => (effs, .ok (hw, unled))
  | (t, p, out) :: rest, hw, unled, effs =>
      match out with
      | .noError [] => (effs, .error .indexError)
      | .noError (o :: _) => processHWGo rest (dinsert hw (t, p) o) unled effs
      | .notLeaderForPartition =>
          processHWGo rest hw (unled ++ [(t, p)]) (effs ++ [Effect.logWarn (notLeaderMsg t p)])
      | .unknownTopicOrPartition =>
          processHWGo rest hw unled (effs ++ [Effect.logWarn (unknownTopicMsg t p)])
      | .otherError _ => (effs, .error (.kafkaError (unexpectedHwErrMsg t p)))

/-- Source `_process_highwater_offsets` (lines 177-217): fold the response entries,
returning the highwater map and the topic-partitions-without-a-leader list. -/
def process_highwater_offsets (resp : List (String × List (Int × HWOutcome))) :
    List Effect × Except PyErr (Dict TP Int × List TP) :=
  processHWGo (flattenResponse resp) [] [] []

/-- Broker cluster client capabilities consumed by the check, fixed for one cycle:
`cluster.available_partitions_for_topic`, `cluster.leader_for_partition`, the client
`api_version` tuple, and the broker answer per (topic, partition) to the per-leader
OffsetRequest batch. -/
structure ClusterWorld where
  availablePartitionsForTopic : String → List Int
  leaderForPartition : String × Int → Option Int
  apiVersion : List Nat
  offsetsOutcome : String → Int → HWOutcome

/-- First loop of `_get_broker_offsets` (source lines 243-248): substitute all
available partitions for topics listed with an empty partition set, accumulating into
`topics_to_fetch` (a defaultdict of sets). -/
def topicsToFetch (w : ClusterWorld) (topics : Dict String (List Int)) :
    Dict String (List Int) :=
  topics.foldl
    (fun acc tp =>
      let ps := if tp.2 = [] then w.availablePartitionsForTopic tp.1 else tp.2
      dinsert acc tp.1 (sunion ((dlookup acc tp.1).getD []) ps))
    []

/-- Add one (leader, topic, partition) to the per-leader grouping (source line 255). -/
def addLeaderTp (acc : Dict Int (Dict String (List Int))) (l : Int) (t : String) (p : Int) :
    Dict Int (Dict String (List Int)) :=
  let tmap := (dlookup acc l).getD []
  let ps := (dlookup tmap t).getD []
  dinsert acc l (dinsert tmap t (sinsert ps p))

/-- Second loop of `_get_broker_offsets` (source lines 250-255): group the fetch set by
the current partition leader, dropping pairs whose leader is unknown or negative. -/
def leaderTp (w : ClusterWorld) (ttf : Dict String (List Int)) :
    Dict Int (Dict String (List Int)) :=
  ttf.foldl
    (fun acc tp =>
      tp.2.foldl
        (fun acc2 p =>
          match w.leaderForPartition (tp.1, p) with
          | some l => if 0 ≤ l then addLeaderTp acc2 l tp.1 p else acc2
          | none => acc2)
        acc)
    []

/-- Response of one broker to the OffsetRequest built from its per-leader topic map
(source lines 260-268): the broker answers every requested (topic, partition) with its
outcome for that pair. -/
def nodeResponse (w : ClusterWorld) (tps : Dict String (List Int)) :
    List (String × List (Int × HWOutcome)) :=
  tps.map (fun tp => (tp.1, tp.2.map (fun p => (p, w.offsetsOutcome tp.1 p))))

/-- Merge `highwater_offsets.update(offsets)` (source line 270). -/
def dupdate (a b : Dict TP Int) : Dict TP Int :=
  b.foldl (fun acc kv => dinsert acc kv.1 kv.2) a

/-- Per-node loop of `_get_broker_offsets` (source lines 258-271): one blocking request
per leader, processing each response and accumulating offsets, leaderless pairs and
log effects; an exception from processing propagates. -/
def brokerNodesGo (w : ClusterWorld) : List (Int × Dict String (List Int)) →
    Dict TP Int → List TP → List Effect → List Effect × Except PyErr (Dict TP Int × List TP)
  | [], hw, unled, effs => (effs, .ok (hw, unled))
  | (_, tps) :: rest, hw, unled, effs =>
      match process_highwater_offsets (nodeResponse w tps) with
      | (effs2, .error e) => (effs ++ effs2, .error e)
      | (effs2, .ok (offs, unl)) =>
          brokerNodesGo w rest (dupdate hw offs) (unled ++ unl) (effs ++ effs2)

/-- Source `_get_broker_offsets` (lines 219-273): fetch highwater offsets for each
topic/partition, one batched request per partition leader, returning the highwater map
and the deduplicated `list(set(topic_partitions_without_a_leader))`. -/
def get_broker_offsets (w : ClusterWorld) (topics : Dict String (List Int)) :
    List Effect × Except PyErr (Dict TP Int × List TP) :=
  match brokerNodesGo w (leaderTp w (topicsToFetch w topics)) [] [] [] with
  | (effs, .ok (hw, unled)) => (effs, .ok (hw, sdedup unled))
  | (effs, .error e) => (effs, .error e)

lemma dlookup_dinsert_self {α β : Type} [DecidableEq α] (d : Dict α β) (k : α) (v : β) :
    dlookup (dinsert d k v) k = some v := by
  induction d with
  | nil => simp [dinsert, dlookup]
  | cons e rest ih =>
    obtain ⟨k0, v0⟩ := e
    rw [dinsert]
    by_cases h0 : k0 = k
    · rw [if_pos h0, dlookup, if_pos rfl]
    · rw [if_neg h0, dlookup, if_neg h0, ih]

lemma dlookup_dinsert_ne {α β : Type} [DecidableEq α] (d : Dict α β) {k k' : α} (v : β)
    (h : k ≠ k') : dlookup (dinsert d k v) k' = dlookup d k' := by
  induction d with
  | nil => simp [dinsert, dlookup, h]
  | cons e rest ih =>
    obtain ⟨k0, v0⟩ := e
    rw [dinsert]
    by_cases h0 : k0 = k
    · subst h0
      rw [if_pos rfl, dlookup, dlookup, if_neg h, if_neg h]
    · rw [if_neg h0, dlookup, dlookup]
      by_cases h1 : k0 = k'
      · rw [if_pos h1, if_pos h1]
      · rw [if_neg h1, if_neg h1, ih]

lemma dlookup_dinsert_ne_none {α β : Type} [DecidableEq α] {d : Dict α β} {k k' : α} {v : β}
    (h : dlookup (dinsert d k v) k' ≠ none) : k = k' ∨ dlookup d k' ≠ none := by
  by_cases hk : k = k'
  · exact Or.inl hk
  · right; rwa [dlookup_dinsert_ne d v hk] at h

lemma mem_sinsert {α : Type} [DecidableEq α] {xs : List α} {x y : α} :
    y ∈ sinsert xs x ↔ y ∈ xs ∨ y = x := by
  unfold sinsert
  split
  · rename_i hx
    constructor
    · exact fun hy => Or.inl hy
    · rintro (hy | rfl)
      · exact hy
      · exact hx
  · simp [List.mem_append]

lemma sunion_cons {α : Type} [DecidableEq α] (a : List α) (x : α) (rest : List α) :
    sunion a (x :: rest) = sunion (sinsert a x) rest := rfl

lemma mem_sunion {α : Type} [DecidableEq α] {b a : List α} {y : α} :
    y ∈ sunion a b ↔ y ∈ a ∨ y ∈ b := by
  induction b generalizing a with
  | nil => simp [sunion]
  | cons x rest ih =>
    rw [sunion_cons, ih, mem_sinsert]
    simp [List.mem_cons]
    tauto

lemma mem_sdedup {α : Type} [DecidableEq α] {l : List α} {y : α} :
    y ∈ sdedup l ↔ y ∈ l := by
  unfold sdedup
  rw [mem_sunion]
  simp

lemma dlookup_dupdate_ne_none {b a : Dict TP Int} {k : TP}
    (h : dlookup (dupdate a b) k ≠ none) : dlookup a k ≠ none ∨ dlookup b k ≠ none := by
  induction b generalizing a with
  | nil => exact Or.inl h
  | cons e rest ih =>
    obtain ⟨k0, v0⟩ := e
    have hstep : dupdate a ((k0, v0) :: rest) = dupdate (dinsert a k0 v0) rest := rfl
    rw [hstep] at h
    rcases ih h with h1 | h2
    · rcases dlookup_dinsert_ne_none h1 with heq | ha
      · right; rw [dlookup, if_pos heq]; simp
      · exact Or.inl ha
    · right
      rw [dlookup]
      by_cases hk : k0 = k
      · rw [if_pos hk]; simp
      · rwa [if_neg hk]

lemma nodeResponse_entries (w : ClusterWorld) (tps : Dict String (List Int)) :
    ∀ e ∈ flattenResponse (nodeResponse w tps), e.2.2 = w.offsetsOutcome e.1 e.2.1 := by
  induction tps with
  | nil => intro e he; simp [nodeResponse, flattenResponse] at he
  | cons tp rest ih =>
    intro e he
    obtain ⟨t, ps⟩ := tp
    simp only [nodeResponse, List.map_cons] at he
    rw [flattenResponse] at he
    rcases List.mem_append.mp he with h1 | h2
    · simp only [List.map_map, List.mem_map] at h1
      obtain ⟨p, _, rfl⟩ := h1
      rfl
    · exact ih e h2

lemma processHWGo_spec (w : ClusterWorld) :
    ∀ (entries : List (String × Int × HWOutcome)) (hw0 : Dict TP Int) (unled0 : List TP)
      (effs0 effs : List Effect) (hw : Dict TP Int) (unled : List TP),
    (∀ e ∈ entries, e.2.2 = w.offsetsOutcome e.1 e.2.1) →
    processHWGo entries hw0 unled0 effs0 = (effs, .ok (hw, unled)) →
    (∀ t p, dlookup hw (t, p) ≠ none →
        dlookup hw0 (t, p) ≠ none ∨ ∃ o os, w.offsetsOutcome t p = .noError (o :: os)) ∧
    (∀ t p, (t, p) ∈ unled →
        (t, p) ∈ unled0 ∨ w.offsetsOutcome t p = .notLeaderForPartition) := by
  intro entries
  induction entries with
  | nil =>
    intro hw0 unled0 effs0 effs hw unled _ hrun
    rw [processHWGo] at hrun
    simp only [Prod.mk.injEq, Except.ok.injEq] at hrun
    obtain ⟨-, h2, h3⟩ := hrun
    subst h2; subst h3
    exact ⟨fun t p h => Or.inl h, fun t p h => Or.inl h⟩
  | cons e rest ih =>
    intro hw0 unled0 effs0 effs hw unled hfrom hrun
    obtain ⟨t, p, out⟩ := e
    have hout : out = w.offsetsOutcome t p := hfrom (t, p, out) (List.mem_cons_self _ _)
    have hfrom' : ∀ e ∈ rest, e.2.2 = w.offsetsOutcome e.1 e.2.1 :=
      fun e he => hfrom e (List.mem_cons_of_mem _ he)
    cases out with
    | noError offs =>
      cases offs with
      | nil => rw [processHWGo] at hrun; simp at hrun
      | cons o os =>
        rw [processHWGo] at hrun
        have spec := ih (dinsert hw0 (t, p) o) unled0 effs0 effs hw unled hfrom' hrun
        refine ⟨fun t' p' hne => ?_, spec.2⟩
        rcases spec.1 t' p' hne with h1 | h2
        · rcases dlookup_dinsert_ne_none h1 with heq | ha
          · right
            obtain ⟨rfl, rfl⟩ : t = t' ∧ p = p' := by
              injection heq with ha hb; exact ⟨ha, hb⟩
            exact ⟨o, os, hout.symm⟩
          · exact Or.inl ha
        · exact Or.inr h2
    | notLeaderForPartition =>
      rw [processHWGo] at hrun
      have spec := ih hw0 (unled0 ++ [(t, p)]) (effs0 ++ [Effect.logWarn (notLeaderMsg t p)])
        effs hw unled hfrom' hrun
      refine ⟨spec.1, fun t' p' hm => ?_⟩
      rcases spec.2 t' p' hm with h1 | h2
      · rcases List.mem_append.mp h1 with ha | hb
        · exact Or.inl ha
        · simp only [List.mem_singleton, Prod.mk.injEq] at hb
          obtain ⟨rfl, rfl⟩ := hb
          exact Or.inr hout.symm
      · exact Or.inr h2
    | unknownTopicOrPartition =>
      rw [processHWGo] at hrun
      exact ih hw0 unled0 (effs0 ++ [Effect.logWarn (unknownTopicMsg t p)])
        effs hw unled hfrom' hrun
    | otherError c =>
      rw [processHWGo] at hrun
      simp at hrun

lemma brokerNodesGo_spec (w : ClusterWorld) :
    ∀ (nodes : List (Int × Dict String (List Int))) (hw0 : Dict TP Int) (unled0 : List TP)
      (effs0 effs : List Effect) (hw : Dict TP Int) (unled : List TP),
    brokerNodesGo w nodes hw0 unled0 effs0 = (effs, .ok (hw, unled)) →
    (∀ t p, dlookup hw (t, p) ≠ none →
        dlookup hw0 (t, p) ≠ none ∨ ∃ o os, w.offsetsOutcome t p = .noError (o :: os)) ∧
    (∀ t p, (t, p) ∈ unled →
        (t, p) ∈ unled0 ∨ w.offsetsOutcome t p = .notLeaderForPartition) := by
  intro nodes
  induction nodes with
  | nil =>
    intro hw0 unled0 effs0 effs hw unled hrun
    rw [brokerNodesGo] at hrun
    simp only [Prod.mk.injEq, Except.ok.injEq] at hrun
    obtain ⟨-, h2, h3⟩ := hrun
    subst h2; subst h3
    exact ⟨fun t p h => Or.inl h, fun t p h => Or.inl h⟩
  | cons nd rest ih =>
    intro hw0 unled0 effs0 effs hw unled hrun
    obtain ⟨nid, tps⟩ := nd
    rw [brokerNodesGo] at hrun
    rcases hpr : process_highwater_offsets (nodeResponse w tps) with ⟨effs2, r⟩
    rw [hpr] at hrun
    cases r with
    | error e => simp at hrun
    | ok pr =>
      obtain ⟨offs, unl⟩ := pr
      have hinner := processHWGo_spec w (flattenResponse (nodeResponse w tps)) [] [] []
        effs2 offs unl (nodeResponse_entries w tps) hpr
      have spec := ih (dupdate hw0 offs) (unled0 ++ unl) (effs0 ++ effs2) effs hw unled hrun
      constructor
      · intro t p hne
        rcases spec.1 t p hne with h1 | h2
        · rcases dlookup_dupdate_ne_none h1 with ha | hb
          · exact Or.inl ha
          · exact Or.inr ((hinner.1 t p hb).resolve_left (by simp [dlookup]))
        · exact Or.inr h2
      · intro t p hm
        rcases spec.2 t p hm with h1 | h2
        · rcases List.mem_append.mp h1 with ha | hb
          · exact Or.inl ha
          · exact Or.inr ((hinner.2 t p hb).resolve_left (by simp))
        · exact Or.inr h2

lemma get_broker_offsets_disjoint {w : ClusterWorld} {topics : Dict String (List Int)}
    {effs : List Effect} {hw : Dict TP Int} {unled : List TP}
    (h : get_broker_offsets w topics = (effs, Except.ok (hw, unled))) :
    ∀ tp ∈ unled, dlookup hw tp = none := by
  intro tp hmem
  unfold get_broker_offsets at h
  rcases hrun : brokerNodesGo w (leaderTp w (topicsToFetch w topics)) [] [] [] with ⟨e0, r0⟩
  rw [hrun] at h
  cases r0 with
  | error e => simp at h
  | ok pr =>
    obtain ⟨hw0, unled0⟩ := pr
    simp only [Prod.mk.injEq, Except.ok.injEq] at h
    obtain ⟨-, h2, h3⟩ := h
    subst h2; subst h3
    have spec := brokerNodesGo_spec w _ [] [] [] e0 hw0 unled0 hrun
    obtain ⟨t, p⟩ := tp
    have hm0 : (t, p) ∈ unled0 := mem_sdedup.mp hmem
    have hnl : w.offsetsOutcome t p = HWOutcome.notLeaderForPartition :=
      (spec.2 t p hm0).resolve_left (by simp)
    by_contra hne
    have := (spec.1 t p hne).resolve_left (by simp [dlookup])
    obtain ⟨o, os, hno⟩ := this
    rw [hnl] at hno
    exact absurd hno (by simp)

lemma processHWGo_warns :
    ∀ (entries : List (String × Int × HWOutcome)) (hw0 : Dict TP Int) (unled0 : List TP)
      (effs0 effs : List Effect) (hw : Dict TP Int) (unled : List TP),
    processHWGo entries hw0 unled0 effs0 = (effs, .ok (hw, unled)) →
    (∀ e ∈ effs0, e ∈ effs) ∧
    (∀ t p, (t, p, HWOutcome.unknownTopicOrPartition) ∈ entries →
        Effect.logWarn (unknownTopicMsg t p) ∈ effs) ∧
    (∀ tp, tp ∈ unled →
        tp ∈ unled0 ∨ (tp.1, tp.2, HWOutcome.notLeaderForPartition) ∈ entries) := by
  intro entries
  induction entries with
  | nil =>
    intro hw0 unled0 effs0 effs hw unled hrun
    rw [processHWGo] at hrun
    simp only [Prod.mk.injEq, Except.ok.injEq] at hrun
    obtain ⟨h1, -, h3⟩ := hrun
    subst h1; subst h3
    exact ⟨fun e he => he, by simp, fun tp h => Or.inl h⟩
  | cons e rest ih =>
    intro hw0 unled0 effs0 effs hw unled hrun
    obtain ⟨t, p, out⟩ := e
    cases out with
    | noError offs =>
      cases offs with
      | nil => rw [processHWGo] at hrun; simp at hrun
      | cons o os =>
        rw [processHWGo] at hrun
        have spec := ih (dinsert hw0 (t, p) o) unled0 effs0 effs hw unled hrun
        refine ⟨spec.1, fun t' p' hm => ?_, fun tp hm => ?_⟩
        · rcases List.mem_cons.mp hm with hh | hr
          · exact absurd hh (by simp)
          · exact spec.2.1 t' p' hr
        · rcases spec.2.2 tp hm with h1 | h2
          · exact Or.inl h1
          · exact Or.inr (List.mem_cons_of_mem _ h2)
    | notLeaderForPartition =>
      rw [processHWGo] at hrun
      have spec := ih hw0 (unled0 ++ [(t, p)]) (effs0 ++ [Effect.logWarn (notLeaderMsg t p)])
        effs hw unled hrun
      refine ⟨fun e he => spec.1 e (List.mem_append_left _ he), fun t' p' hm => ?_,
        fun tp hm => ?_⟩
      · rcases List.mem_cons.mp hm with hh | hr
        · exact absurd hh (by simp)
        · exact spec.2.1 t' p' hr
      · rcases spec.2.2 tp hm with h1 | h2
        · rcases List.mem_append.mp h1 with ha | hb
          · exact Or.inl ha
          · simp only [List.mem_singleton] at hb
            subst hb
            exact Or.inr (List.mem_cons_self _ _)
        · exact Or.inr (List.mem_cons_of_mem _ h2)
    | unknownTopicOrPartition =>
      rw [processHWGo] at hrun
      have spec := ih hw0 unled0 (effs0 ++ [Effect.logWarn (unknownTopicMsg t p)])
        effs hw unled hrun
      refine ⟨fun e he => spec.1 e (List.mem_append_left _ he), fun t' p' hm => ?_,
        fun tp hm => ?_⟩
      · rcases List.mem_cons.mp hm with hh | hr
        · obtain ⟨rfl, rfl, -⟩ := Prod.mk.injEq .. ▸ hh
          exact spec.1 _ (List.mem_append_right _ (List.mem_singleton_self _))
        · exact spec.2.1 t' p' hr
      · rcases spec.2.2 tp hm with h1 | h2
        · exact Or.inl h1
        · exact Or.inr (List.mem_cons_of_mem _ h2)
    | otherError c =>
      rw [processHWGo] at hrun
      simp at hrun

/-- C4: a (topic, partition) recorded as leaderless by the highwater fetch is never a
key of the returned high-water-mark map, and no consumer-lag gauge is ever emitted for
it by the reporting pass, regardless of whether any source reports a committed offset
for that partition. -/
theorem c4_leaderless_never_reported (w : ClusterWorld) (topics : Dict String (List Int))
    (effs : List Effect) (hw : Dict TP Int) (unled : List TP)
    (h : get_broker_offsets w topics = (effs, Except.ok (hw, unled))) :
    ∀ tp ∈ unled, dlookup hw tp = none ∧
      ∀ (coffs : Dict GTP Int) (tags : List String) (g : String) (v : Int),
        Effect.gauge "kafka.consumer_lag" v (consumer_group_tags g tp.1 tp.2 tags) ∉
          report_consumer_metrics hw coffs unled tags := by
  intro tp hmem
  have hnone := get_broker_offsets_disjoint h tp hmem
  refine ⟨hnone, ?_⟩
  intro coffs tags g v hg
  obtain ⟨g', t', p', htg, hv, hlk⟩ := report_lag_gauge_has_hw coffs hg
  obtain ⟨-, h2, h3⟩ := consumer_group_tags_inj htg
  rw [← h2, ← h3] at hlk
  have : dlookup hw tp = some hv := by
    obtain ⟨a, b⟩ := tp
    exact hlk
  rw [hnone] at this
  exact absurd this (by simp)

/-- Concrete cluster for the C4 witness: two topics on one leader, the broker answers
success for t and "not leader" for t2. -/
def cw4 : ClusterWorld where
  availablePartitionsForTopic := fun _ => []
  leaderForPartition := fun _ => some 1
  apiVersion := [0, 10, 2]
  offsetsOutcome := fun t _ =>
    if t = "t" then HWOutcome.noError [100] else HWOutcome.notLeaderForPartition

/-- Witness for C4 at a concrete cluster: ("t2", 1) is leaderless, absent from the
highwater map, and gets no consumer-lag gauge even though a committed offset exists. -/
theorem c4_leaderless_never_reported_witness :
    get_broker_offsets cw4 [("t", [0]), ("t2", [1])] =
      ([Effect.logWarn (notLeaderMsg "t2" 1)],
        Except.ok ([(("t", 0), 100)], [("t2", 1)])) ∧
    dlookup ([(("t", 0), 100)] : Dict TP Int) ("t2", 1) = none ∧
    Effect.gauge "kafka.consumer_lag" (-5) (consumer_group_tags "g" "t2" 1 []) ∉
      report_consumer_metrics [(("t", 0), 100)] [(("g", "t2", 1), 5)] [("t2", 1)] [] := by
  have h : get_broker_offsets cw4 [("t", [0]), ("t2", [1])] =
      ([Effect.logWarn (notLeaderMsg "t2" 1)],
        Except.ok ([(("t", 0), 100)], [("t2", 1)])) := rfl
  have main := c4_leaderless_never_reported cw4 [("t", [0]), ("t2", [1])] _ _ _ h
    ("t2", 1) (by decide)
  exact ⟨h, main.1, main.2 [(("g", "t2", 1), 5)] [] "g" (-5)⟩

/-- Counterexample for C5: an "unknown topic or partition" entry is logged at warning
level but the leaderless list stays empty, while a "not leader" entry for the same
pair is appended to it — the fetcher does not treat the two cases alike. -/
theorem c5_counterexample :
    process_highwater_offsets [("t", [(0, HWOutcome.unknownTopicOrPartition)])] =
      ([Effect.logWarn (unknownTopicMsg "t" 0)], Except.ok ([], [])) ∧
    process_highwater_offsets [("t", [(0, HWOutcome.notLeaderForPartition)])] =
      ([Effect.logWarn (notLeaderMsg "t" 0)], Except.ok ([], [("t", 0)])) :=
  ⟨rfl, rfl⟩

/-- C5 (amended): when parsing a per-partition high-water-mark response entry whose
error code is "unknown topic or partition", the fetcher logs at warning level but does
NOT add the pair to the leaderless list; only "not leader for partition" entries are
added to it. -/
theorem c5_unknown_topic_logged_not_leaderless
    (resp : List (String × List (Int × HWOutcome)))
    (effs : List Effect) (hw : Dict TP Int) (unled : List TP)
    (h : process_highwater_offsets resp = (effs, Except.ok (hw, unled))) :
    (∀ t p, (t, p, HWOutcome.unknownTopicOrPartition) ∈ flattenResponse resp →
        Effect.logWarn (unknownTopicMsg t p) ∈ effs) ∧
    (∀ tp ∈ unled, (tp.1, tp.2, HWOutcome.notLeaderForPartition) ∈ flattenResponse resp) := by
  have spec := processHWGo_warns (flattenResponse resp) [] [] [] effs hw unled h
  exact ⟨spec.2.1, fun tp hm => (spec.2.2 tp hm).resolve_left (by simp)⟩

/-- Witness for the amended C5 at a concrete response with one unknown-topic entry and
one not-leader entry. -/
theorem c5_unknown_topic_logged_not_leaderless_witness :
    process_highwater_offsets
        [("t", [(0, HWOutcome.unknownTopicOrPartition), (1, HWOutcome.notLeaderForPartition)])] =
      ([Effect.logWarn (unknownTopicMsg "t" 0), Effect.logWarn (notLeaderMsg "t" 1)],
        Except.ok ([], [("t", 1)])) ∧
    Effect.logWarn (unknownTopicMsg "t" 0) ∈
      [Effect.logWarn (unknownTopicMsg "t" 0), Effect.logWarn (notLeaderMsg "t" 1)] ∧
    ("t", 1, HWOutcome.notLeaderForPartition) ∈ flattenResponse
      [("t", [(0, HWOutcome.unknownTopicOrPartition), (1, HWOutcome.notLeaderForPartition)])] := by
  have h : process_highwater_offsets
      [("t", [(0, HWOutcome.unknownTopicOrPartition), (1, HWOutcome.notLeaderForPartition)])] =
      ([Effect.logWarn (unknownTopicMsg "t" 0), Effect.logWarn (notLeaderMsg "t" 1)],
        Except.ok ([], [("t", 1)])) := rfl
  have main := c5_unknown_topic_logged_not_leaderless _ _ _ _ h
  exact ⟨h, main.1 "t" 0 (by decide), main.2 ("t", 1) (by decide)⟩

/-- Result of `zk_conn.get_children(path)`: child names, a missing node
(`NoNodeError`), or any other failure. -/
inductive ZkChildren
  | ok (names : List String)
  | noNode
  | err
  deriving DecidableEq

/-- Result of `zk_conn.get(path)`: the raw node data, a missing node, or any other
failure. -/
inductive ZkGet
  | ok (data : String)
  | noNode
  | err
  deriving DecidableEq

/-- Coordination-store client capability, fixed for one cycle: the answer of the store
for each path queried with `get_children` and `get`. -/
structure ZkWorld where
  children : String → ZkChildren
  getNode : String → ZkGet

/-- Partition list of one topic in a consumer-group spec: `None` (or, once resolved, a
list of ints). An empty or missing list means "discover dynamically". -/
abbrev PartitionsSpec := Option (List Int)

/-- Topic map of one consumer group. -/
abbrev TopicsSpec := Dict String PartitionsSpec

/-- Consumer-group spec `{'consumer_group': {'topic': [0, 1]}}` with optional layers. -/
abbrev GroupsSpec := Dict String (Option TopicsSpec)

/-- Log line `'No zookeeper node at %s'` (source lines 326 and 391). -/
def noZkNodeMsg (path : String) : String := "No zookeeper node at " ++ path

/-- Log line `'Could not read %s from %s'` (source line 328). -/
def couldNotReadMsg (what path : String) : String :=
  "Could not read " ++ what ++ " from " ++ path

/-- Log line `'Could not read consumer offset from %s'` (source line 393). -/
def couldNotReadOffsetMsg (path : String) : String :=
  "Could not read consumer offset from " ++ path

/-- Message of the ValueError raised by `int` on a non-numeric string. -/
def invalidIntMsg (s : String) : String :=
  "invalid literal for int() with base 10: " ++ s

/-- Path `zk_prefix + '/consumers/'` (source line 347). -/
def zkPathConsumer (zkPref : String) : String := zkPref ++ "/consumers/"

/-- Path `zk_path_consumer + group + '/offsets/'` (source line 348). -/
def zkPathTopics (zkPref g : String) : String := zkPathConsumer zkPref ++ g ++ "/offsets/"

/-- Path `zk_path_topic_tmpl + topic + '/'` (source line 349). -/
def zkPathPartitions (zkPref g t : String) : String := zkPathTopics zkPref g ++ t ++ "/"

/-- Leaf path `zk_path_partition_tmpl + partition + '/'` (source lines 383-385). -/
def zkPathOffset (zkPref g t : String) (p : Int) : String :=
  zkPathPartitions zkPref g t ++ intStr p ++ "/"

/-- Source `_get_zk_path_children` (lines 320-329): fetch child nodes for a path;
a missing node logs at info and any other failure logs the exception, both returning
the empty list. -/
def get_zk_path_children (w : ZkWorld) (zk_path : String) (name_for_error : String) :
    List Effect × List String :=
  match w.children zk_path with
  | .ok names => ([], names)
  | .noNode => ([Effect.logInfo (noZkNodeMsg zk_path)], [])
  | .err => ([Effect.logException (couldNotReadMsg name_for_error zk_path)], [])

/-- Parse the partition-id child names, `[int(x) for x in children]` (source lines
376-378): the comprehension raises ValueError at the first non-numeric name. -/
def parseInts : List String → Except PyErr (List Int)
  | [] => .ok []
  | s :: rest =>
      match pyInt s with
      | some n => (parseInts rest).map (fun l => n :: l)
      | none => .error (.valueError (invalidIntMsg s))

/-- Read one committed offset leaf (source lines 382-393): `int(zk_conn.get(path)[0])`,
with `NoNodeError` logged at info and any other failure (including non-numeric data)
logged as an exception, both skipping the node. -/
def zkReadOffset (w : ZkWorld) (zkPref g t : String) (p : Int)
    (offsets : Dict GTP Int) : List Effect × Dict GTP Int :=
  let path := zkPathOffset zkPref g t p
  match w.getNode path with
  | .ok data =>
      match pyInt data with
      | some n => ([], dinsert offsets (g, t, p) n)
      | none => ([Effect.logException (couldNotReadOffsetMsg path)], offsets)
  | .noNode => ([Effect.logInfo (noZkNodeMsg path)], offsets)
  | .err => ([Effect.logException (couldNotReadOffsetMsg path)], offsets)

/-- Inner loop over the partitions of one topic (source lines 381-393). -/
def zkReadPartitions (w : ZkWorld) (zkPref g t : String) (ps : List Int)
    (offsets : Dict GTP Int) : List Effect × Dict GTP Int :=
  ps.foldl
    (fun st p =>
      let r := zkReadOffset w zkPref g t p st.2
      (st.1 ++ r.1, r.2))
    ([], offsets)

/-- Per-topic step of `_get_zk_consumer_offsets` (source lines 368-393): a truthy
partition list is used as `set(partitions)` without writing back; otherwise the
partition ids are discovered from the store, parsed with `int` (a parse failure raises
and aborts, leaving the spec entry unchanged), and the parsed list is written back to
the consumer-group spec. Returns (effects, offsets, partitions value after the step,
raised error). -/
def zkProcessTopic (w : ZkWorld) (zkPref g t : String) (pspec : PartitionsSpec)
    (offsets : Dict GTP Int) :
    List Effect × Dict GTP Int × PartitionsSpec × Option PyErr :=
  match pspec with
  | some (p :: ps) =>
      let r := zkReadPartitions w zkPref g t (sdedup (p :: ps)) offsets
      (r.1, r.2, some (p :: ps), none)
  | _ =>
      let cres := get_zk_path_children w (zkPathPartitions zkPref g t) "partitions"
      match parseInts cres.2 with
      | .error e => (cres.1, offsets, pspec, some e)
      | .ok ps =>
          let r := zkReadPartitions w zkPref g t ps offsets
          (cres.1 ++ r.1, r.2, some ps, none)

/-- Loop over the topics of one group (source lines 368-393), carrying the updated
topic map (in-place writebacks to the spec) and stopping on a raised error. -/
def zkProcessTopicsGo (w : ZkWorld) (zkPref g : String) :
    List (String × PartitionsSpec) → TopicsSpec → Dict GTP Int → List Effect →
    List Effect × Dict GTP Int × TopicsSpec × Option PyErr
  | [], tacc, offsets, effs => (effs, offsets, tacc, none)
  | (t, pspec) :: rest, tacc, offsets, effs =>
      match zkProcessTopic w zkPref g t pspec offsets with
      | (effs2, offs2, pspec2, none) =>
          zkProcessTopicsGo w zkPref g rest (dinsert tacc t pspec2) offs2 (effs ++ effs2)
      | (effs2, offs2, pspec2, some e) =>
          (effs ++ effs2, offs2, dinsert tacc t pspec2, some e)

/-- Per-group step of `_get_zk_consumer_offsets` (source lines 361-393): a falsy topic
map (absent or empty) is discovered from the store as `{topic: None}` and written back
to the spec before the topic loop runs. Returns (effects, offsets, topic map after the
step, raised error). -/
def zkProcessGroup (w : ZkWorld) (zkPref g : String) (tspec : Option TopicsSpec)
    (offsets : Dict GTP Int) :
    List Effect × Dict GTP Int × TopicsSpec × Option PyErr :=
  match tspec with
  | some (e :: rest) =>
      let r := zkProcessTopicsGo w zkPref g (e :: rest) (e :: rest) offsets []
      (r.1, r.2.1, r.2.2.1, r.2.2.2)
  | _ =>
      let cres := get_zk_path_children w (zkPathTopics zkPref g) "topics"
      let topics : TopicsSpec := cres.2.map (fun t => (t, none))
      let r := zkProcessTopicsGo w zkPref g topics topics offsets []
      (cres.1 ++ r.1, r.2.1, r.2.2.1, r.2.2.2)

/-- Loop over the consumer groups (source lines 361-393), carrying the updated spec
(in-place writebacks) and stopping on a raised error. -/
def zkGroupsGo (w : ZkWorld) (zkPref : String) :
    List (String × Option TopicsSpec) → GroupsSpec → Dict GTP Int → List Effect →
    List Effect × Dict GTP Int × GroupsSpec × Option PyErr
  | [], gacc, offsets, effs => (effs, offsets, gacc, none)
  | (g, tspec) :: rest, gacc, offsets, effs =>
      match zkProcessGroup w zkPref g tspec offsets with
      | (effs2, offs2, tspec2, none) =>
          zkGroupsGo w zkPref rest (dinsert gacc g (some tspec2)) offs2 (effs ++ effs2)
      | (effs2, offs2, tspec2, some e) =>
          (effs ++ effs2, offs2, dinsert gacc g (some tspec2), some e)

/-- Outcome of `_get_zk_consumer_offsets`: the collected effects, the committed offsets
read so far, the consumer-group spec object as left by the in-place mutations (it is
the caller's dictionary, so the instance configuration sees these writes), and the
error that propagated out, if any (the `finally` block closes the connection either
way and is modelled as effect-free). -/
structure ZkResult where
  effects : List Effect
  offsets : Dict GTP Int
  groups : GroupsSpec
  err : Option PyErr

/-- Source `_get_zk_consumer_offsets` (lines 331-400): when no groups are specified,
discover them from the store as `{group: None}` (a fresh dictionary); then resolve
topics, partitions and leaf offsets per group. -/
def get_zk_consumer_offsets (w : ZkWorld) (consumer_groups : Option GroupsSpec)
    (zkPref : String) : ZkResult :=
  match consumer_groups with
  | none =>
      let cres := get_zk_path_children w (zkPathConsumer zkPref) "consumer groups"
      let groups : GroupsSpec := cres.2.map (fun g => (g, none))
      match zkGroupsGo w zkPref groups groups [] [] with
      | (effs, offsets, gacc, e) => ⟨cres.1 ++ effs, offsets, gacc, e⟩
  | some groups =>
      match zkGroupsGo w zkPref groups groups [] [] with
      | (effs, offsets, gacc, e) => ⟨effs, offsets, gacc, e⟩

lemma parseInts_isSome (names : List String) (h : ∀ s ∈ names, (pyInt s).isSome) :
    ∃ l, parseInts names = .ok l := by
  induction names with
  | nil => exact ⟨[], rfl⟩
  | cons s rest ih =>
    obtain ⟨n, hn⟩ := Option.isSome_iff_exists.mp (h s (List.mem_cons_self _ _))
    obtain ⟨l, hl⟩ := ih (fun x hx => h x (List.mem_cons_of_mem _ hx))
    refine ⟨n :: l, ?_⟩
    rw [parseInts, hn, hl]
    rfl

lemma zkProcessTopic_err (w : ZkWorld) (zkPref g t : String) (pspec : PartitionsSpec)
    (offsets : Dict GTP Int)
    (hparse : ∀ path names, w.children path = ZkChildren.ok names →
      ∀ s ∈ names, (pyInt s).isSome) :
    (zkProcessTopic w zkPref g t pspec offsets).2.2.2 = none := by
  have hdisc : ∀ pspec0 : PartitionsSpec,
      (match parseInts (get_zk_path_children w (zkPathPartitions zkPref g t) "partitions").2 with
        | .error e =>
            ((get_zk_path_children w (zkPathPartitions zkPref g t) "partitions").1, offsets,
              pspec0, some e)
        | .ok ps =>
            let r := zkReadPartitions w zkPref g t ps offsets
            ((get_zk_path_children w (zkPathPartitions zkPref g t) "partitions").1 ++ r.1,
              r.2, some ps, (none : Option PyErr))).2.2.2 = none := by
    intro pspec0
    unfold get_zk_path_children
    cases hc : w.children (zkPathPartitions zkPref g t) with
    | ok names =>
        obtain ⟨l, hl⟩ := parseInts_isSome names (hparse _ _ hc)
        rw [hl]
    | noNode => rfl
    | err => rfl
  cases pspec with
  | none => exact hdisc none
  | some l =>
    cases l with
    | nil => exact hdisc (some [])
    | cons p ps => rfl

lemma zkProcessTopicsGo_err (w : ZkWorld) (zkPref g : String)
    (hparse : ∀ path names, w.children path = ZkChildren.ok names →
      ∀ s ∈ names, (pyInt s).isSome) :
    ∀ (topics : List (String × PartitionsSpec)) (tacc : TopicsSpec)
      (offsets : Dict GTP Int) (effs : List Effect),
    (zkProcessTopicsGo w zkPref g topics tacc offsets effs).2.2.2 = none := by
  intro topics
  induction topics with
  | nil => intro tacc offsets effs; rfl
  | cons e rest ih =>
    intro tacc offsets effs
    obtain ⟨t, pspec⟩ := e
    rw [zkProcessTopicsGo]
    rcases hz : zkProcessTopic w zkPref g t pspec offsets with ⟨effs2, offs2, pspec2, e'⟩
    have he' : e' = none := by
      have := zkProcessTopic_err w zkPref g t pspec offsets hparse
      rw [hz] at this
      exact this
    subst he'
    exact ih _ _ _

lemma zkProcessGroup_err (w : ZkWorld) (zkPref g : String) (tspec : Option TopicsSpec)
    (offsets : Dict GTP Int)
    (hparse : ∀ path names, w.children path = ZkChildren.ok names →
      ∀ s ∈ names, (pyInt s).isSome) :
    (zkProcessGroup w zkPref g tspec offsets).2.2.2 = none := by
  cases tspec with
  | none => exact zkProcessTopicsGo_err w zkPref g hparse _ _ _ _
  | some l =>
    cases l with
    | nil => exact zkProcessTopicsGo_err w zkPref g hparse _ _ _ _
    | cons e rest => exact zkProcessTopicsGo_err w zkPref g hparse _ _ _ _

lemma zkGroupsGo_err (w : ZkWorld) (zkPref : String)
    (hparse : ∀ path names, w.children path = ZkChildren.ok names →
      ∀ s ∈ names, (pyInt s).isSome) :
    ∀ (groups : List (String × Option TopicsSpec)) (gacc : GroupsSpec)
      (offsets : Dict GTP Int) (effs : List Effect),
    (zkGroupsGo w zkPref groups gacc offsets effs).2.2.2 = none := by
  intro groups
  induction groups with
  | nil => intro gacc offsets effs; rfl
  | cons e rest ih =>
    intro gacc offsets effs
    obtain ⟨g, tspec⟩ := e
    rw [zkGroupsGo]
    rcases hz : zkProcessGroup w zkPref g tspec offsets with ⟨effs2, offs2, tspec2, e'⟩
    have he' : e' = none := by
      have := zkProcessGroup_err w zkPref g tspec offsets hparse
      rw [hz] at this
      exact this
    subst he'
    exact ih _ _ _

/-- C8 (amended): a missing node at any discovery or read step, and any other failure
of a store read operation (list-children or leaf get, including non-numeric leaf
data), is non-fatal: the source logs, skips that node and returns a best-effort
result. In particular, whenever every child-name list the store returns consists of
integer-parsable names, the operation never raises. A partition child name that does
not parse as an integer, however, raises ValueError and aborts the whole operation. -/
theorem c8_zk_failures_non_fatal (w : ZkWorld) (consumer_groups : Option GroupsSpec)
    (zkPref : String)
    (hparse : ∀ path names, w.children path = ZkChildren.ok names →
      ∀ s ∈ names, (pyInt s).isSome) :
    (get_zk_consumer_offsets w consumer_groups zkPref).err = none := by
  cases consumer_groups with
  | none =>
    rcases hz : zkGroupsGo w zkPref
        ((get_zk_path_children w (zkPathConsumer zkPref) "consumer groups").2.map
          (fun g => (g, none)))
        ((get_zk_path_children w (zkPathConsumer zkPref) "consumer groups").2.map
          (fun g => (g, none))) [] [] with ⟨effs, offsets, gacc, e⟩
    have he : e = none := by
      have := zkGroupsGo_err w zkPref hparse
        ((get_zk_path_children w (zkPathConsumer zkPref) "consumer groups").2.map
          (fun g => (g, none)))
        ((get_zk_path_children w (zkPathConsumer zkPref) "consumer groups").2.map
          (fun g => (g, none))) [] []
      rw [hz] at this
      exact this
    simp only [get_zk_consumer_offsets, List.map_map]
    rw [hz]
    exact he
  | some groups =>
    rcases hz : zkGroupsGo w zkPref groups groups [] [] with ⟨effs, offsets, gacc, e⟩
    have he : e = none := by
      have := zkGroupsGo_err w zkPref hparse groups groups [] []
      rw [hz] at this
      exact this
    simp only [get_zk_consumer_offsets]
    rw [hz]
    exact he

/-- Store for the C8 counterexample: the partitions path of (g, t) lists a child named
"abc", which is not an integer. -/
def zw8 : ZkWorld where
  children := fun path =>
    if path = "/consumers/g/offsets/t/" then ZkChildren.ok ["abc"] else ZkChildren.noNode
  getNode := fun _ => ZkGet.noNode

/-- Counterexample for C8: a malformed (non-integer) partition child name makes the
coordination-store read raise ValueError and abort the whole operation with no
offsets, instead of logging, skipping the node and returning a best-effort partial
result. -/
theorem c8_counterexample :
    (get_zk_consumer_offsets zw8 (some [("g", some [("t", none)])]) "").err =
      some (PyErr.valueError (invalidIntMsg "abc")) ∧
    (get_zk_consumer_offsets zw8 (some [("g", some [("t", none)])]) "").offsets = [] :=
  ⟨rfl, rfl⟩

/-- Store for the C8 witness: every children listing is missing and every leaf read
succeeds with "42". -/
def zw8w : ZkWorld where
  children := fun _ => ZkChildren.noNode
  getNode := fun _ => ZkGet.ok "42"

/-- Witness for the amended C8: a store whose listings are all missing nodes satisfies
the parse hypothesis vacuously, and the operation returns without raising. -/
theorem c8_zk_failures_non_fatal_witness :
    (∀ path names, zw8w.children path = ZkChildren.ok names →
      ∀ s ∈ names, (pyInt s).isSome) ∧
    (get_zk_consumer_offsets zw8w (some [("g", some [("t", some [0])])]) "").err = none :=
  ⟨fun path names h => by simp [zw8w] at h,
    c8_zk_failures_non_fatal zw8w (some [("g", some [("t", some [0])])]) ""
      (fun path names h => by simp [zw8w] at h)⟩

/-- Number of `%s` placeholders in a Python format string. -/
def countPercentS : List Char → Nat
  | [] => 0
  | '%' :: 's' :: rest => 1 + countPercentS rest
  | _ :: rest => countPercentS rest

/-- Substitute the first `%s` placeholder. -/
def replacePercentS : List Char → List Char → List Char
  | [], _ => []
  | '%' :: 's' :: rest, arg => arg ++ rest
  | c :: rest, arg => c :: replacePercentS rest arg

/-- Python `fmt % arg` with a single string argument: succeeds only when the format
string has exactly one `%s` placeholder; with no placeholder it raises `TypeError:
not all arguments converted during string formatting`. -/
def pyFormat1 (fmt arg : String) : Except PyErr String :=
  if countPercentS fmt.data == 1 then .ok (String.mk (replacePercentS fmt.data arg.data))
  else .error (.typeError "not all arguments converted during string formatting")

/-- Format string of the per-group exception handler (source line 419). Note that it
contains no `%s` placeholder although it is applied to the group with `%`. -/
def kafkaGroupErrMsgFmt : String := "Could not read consumer offsets from kafka for group: "

/-- Log line `'unable to find group coordinator for %s'` (source line 454). -/
def noCoordinatorMsg (g : String) : String := "unable to find group coordinator for " ++ g

/-- Broker-internal offsets capability, fixed for one cycle: `_get_group_coordinator`
(source lines 423-429) folded into one oracle — a raised request error, `none` when
the response error code is not NoError, or the coordinator id — and the
OffsetFetchRequest answer of the coordinator for a group and its (topic, partitions)
request, as (topic, [(partition, offset, error_code)]) entries. -/
structure KafkaWorld where
  coordinatorFor : String → Except PyErr (Option Int)
  offsetFetch : String → Dict String (List Int) → Except PyErr (List (String × List (Int × Int × Int)))

/-- First loop of `_get_single_group_offsets_from_kafka` (source lines 435-438):
`len(partitions)` raises TypeError when the configured partitions are None; an empty
list falls back to all available partitions; `tps[topic] = tps[topic].union(set(partitions))`. -/
def buildTps (cw : ClusterWorld) :
    List (String × PartitionsSpec) → Dict String (List Int) →
    Except PyErr (Dict String (List Int))
  | [], acc => .ok acc
  | (t, pspec) :: rest, acc =>
      match pspec with
      | none => .error (.typeError "object of type NoneType has no len()")
      | some ps =>
          let ps2 := if ps = [] then cw.availablePartitionsForTopic t else ps
          buildTps cw rest (dinsert acc t (sunion ((dlookup acc t).getD []) (sdedup ps2)))

/-- Response loop of `_get_single_group_offsets_from_kafka` (source lines 447-452):
record the offset of every partition whose error code is NoError (0), silently
skipping the others. -/
def collectOffsets : List (String × List (Int × Int × Int)) → Dict TP Int → Dict TP Int
  | [], acc => acc
  | (t, pos) :: rest, acc =>
      collectOffsets rest
        (pos.foldl (fun a po => if po.2.2 = 0 then dinsert a (t, po.1) po.2.1 else a) acc)

/-- Source `_get_single_group_offsets_from_kafka` (lines 431-456): resolve the group
coordinator (an unresolved coordinator logs at info and yields no offsets), then fetch
and collect the committed offsets of one group. -/
def get_single_group_offsets_from_kafka (cw : ClusterWorld) (kw : KafkaWorld)
    (consumer_group : String) (topic_partitions : Option TopicsSpec) :
    List Effect × Except PyErr (Dict TP Int) :=
  match topic_partitions with
  | none => ([], .error (.typeError "argument of type NoneType is not iterable"))
  | some tpsIn =>
      match buildTps cw tpsIn [] with
      | .error e => ([], .error e)
      | .ok tps =>
          match kw.coordinatorFor consumer_group with
          | .error e => ([], .error e)
          | .ok none => ([Effect.logInfo (noCoordinatorMsg consumer_group)], .ok [])
          | .ok (some _) =>
              match kw.offsetFetch consumer_group tps with
              | .error e => ([], .error e)
              | .ok resp => ([], .ok (collectOffsets resp []))

/-- Loop of `_get_kafka_consumer_offsets` (source lines 411-419): accumulate each
group's offsets into the consumer-offsets dict and the topics map. The `except` block
evaluates `'Could not read consumer offsets from kafka for group: ' % consumer_group`,
whose missing placeholder makes the handler itself raise TypeError, aborting the loop. -/
def get_kafka_consumer_offsets_go (cw : ClusterWorld) (kw : KafkaWorld) :
    List (String × Option TopicsSpec) → Dict GTP Int → Dict String (List Int) →
    List Effect → List Effect × Except PyErr (Dict GTP Int × Dict String (List Int))
  | [], coffs, topics, effs => (effs, .ok (coffs, topics))
  | (g, tspec) :: rest, coffs, topics, effs =>
      match get_single_group_offsets_from_kafka cw kw g tspec with
      | (effs2, .ok single) =>
          let st := single.foldl
            (fun (st : Dict GTP Int × Dict String (List Int)) kv =>
              (dinsert st.1 (g, kv.1.1, kv.1.2) kv.2,
               dinsert st.2 kv.1.1 (sunion ((dlookup st.2 kv.1.1).getD []) [kv.1.2])))
            (coffs, topics)
          get_kafka_consumer_offsets_go cw kw rest st.1 st.2 (effs ++ effs2)
      | (effs2, .error _) =>
          match pyFormat1 kafkaGroupErrMsgFmt g with
          | .ok msg =>
              get_kafka_consumer_offsets_go cw kw rest coffs topics
                (effs ++ effs2 ++ [Effect.logException msg])
          | .error e2 => (effs ++ effs2, .error e2)

/-- Source `_get_kafka_consumer_offsets` (lines 402-421). -/
def get_kafka_consumer_offsets (cw : ClusterWorld) (kw : KafkaWorld)
    (consumer_groups : GroupsSpec) :
    List Effect × Except PyErr (Dict GTP Int × Dict String (List Int)) :=
  get_kafka_consumer_offsets_go cw kw consumer_groups [] [] []

/-- Cluster for the C7 evaluation. -/
def cw7 : ClusterWorld where
  availablePartitionsForTopic := fun _ => []
  leaderForPartition := fun _ => some 1
  apiVersion := [0, 10, 2]
  offsetsOutcome := fun _ _ => HWOutcome.noError [100]

/-- Broker-offsets world where the request for group g1 raises and g2 is healthy. -/
def kw7 : KafkaWorld where
  coordinatorFor := fun g =>
    if g = "g1" then .error (.kafkaError "request failed") else .ok (some 5)
  offsetFetch := fun _ _ => .ok [("t", [(0, 7, 0)])]

/-- Broker-offsets world where the coordinator lookup for g1 finds none and g2 is
healthy. -/
def kw7b : KafkaWorld where
  coordinatorFor := fun g => if g = "g1" then .ok none else .ok (some 5)
  offsetFetch := fun _ _ => .ok [("t", [(0, 7, 0)])]

/-- C7 evaluation at its failing input: when fetching group g1 raises an exception,
the per-group `except` handler evaluates a `%` format with no placeholder and itself
raises TypeError, so the whole loop aborts and the healthy group g2 is never
processed — per-group exceptions are NOT isolated. An unresolved coordinator, by
contrast, is isolated as claimed: g1 is skipped with a log line and g2 is still
processed. -/
theorem c7_group_exception_aborts :
    get_kafka_consumer_offsets cw7 kw7
        [("g1", some [("t", some [0])]), ("g2", some [("t", some [0])])] =
      ([], Except.error (PyErr.typeError "not all arguments converted during string formatting")) ∧
    get_kafka_consumer_offsets cw7 kw7b
        [("g1", some [("t", some [0])]), ("g2", some [("t", some [0])])] =
      ([Effect.logInfo (noCoordinatorMsg "g1")],
        Except.ok ([(("g2", "t", 0), 7)], [("t", [0])])) :=
  ⟨rfl, rfl⟩

/-- Dynamically-typed Python value, for the shapes `_validate_explicit_consumer_groups`
inspects. -/
inductive PyVal
  | none
  | int (n : Int)
  | str (s : String)
  | list (xs : List PyVal)
  | tuple (xs : List PyVal)
  | dict (entries : List (PyVal × PyVal))
  | bool (b : Bool)

/-- `assert isinstance(partition, int)` (source line 479). -/
def validatePartition : PyVal → Bool
  | .int _ => true
  | _ => false

/-- `assert isinstance(partitions, (list, tuple)) or partitions is None` (line 476). -/
def validatePartitions : PyVal → Bool
  | .none => true
  | .list xs => xs.all validatePartition
  | .tuple xs => xs.all validatePartition
  | _ => false

/-- One topic entry: `assert isinstance(topic, string_types)` plus its partitions
(source lines 473-479). -/
def validateTopicEntry : PyVal × PyVal → Bool
  | (.str _, partitions) => validatePartitions partitions
  | _ => false

/-- `assert isinstance(topics, dict) or topics is None` and the per-topic checks
(source lines 471-479). -/
def validateTopics : PyVal → Bool
  | .none => true
  | .dict entries => entries.all validateTopicEntry
  | _ => false

/-- One group entry: `assert isinstance(consumer_group, string_types)` plus its topics
(source lines 468-479). -/
def validateGroupEntry : PyVal × PyVal → Bool
  | (.str _, topics) => validateTopics topics
  | _ => false

/-- Source `_validate_explicit_consumer_groups` (lines 458-479): the chain of `assert`
statements; `false` models the AssertionError raised on an invalid shape. -/
def validate_explicit_consumer_groups : PyVal → Bool
  | .dict entries => entries.all validateGroupEntry
  | _ => false

/-- Extract an int. -/
def pyToInt : PyVal → Option Int
  | .int n => some n
  | _ => none

/-- Extract a list of ints. -/
def parseIntList : List PyVal → Option (List Int)
  | [] => some []
  | v :: rest =>
      match pyToInt v with
      | some n => (parseIntList rest).map (fun l => n :: l)
      | none => none

/-- Elaborate a partitions value into the typed spec. -/
def parsePartitions : PyVal → Option PartitionsSpec
  | .none => some Option.none
  | .list xs => (parseIntList xs).map some
  | .tuple xs => (parseIntList xs).map some
  | _ => none

/-- Elaborate the topic entries of one group. -/
def parseTopicEntries : List (PyVal × PyVal) → Option TopicsSpec
  | [] => some []
  | (k, v) :: rest =>
      match k, parsePartitions v with
      | .str t, some ps => (parseTopicEntries rest).map (fun l => (t, ps) :: l)
      | _, _ => none

/-- Elaborate a topics value. -/
def parseTopics : PyVal → Option (Option TopicsSpec)
  | .none => some Option.none
  | .dict entries => (parseTopicEntries entries).map some
  | _ => none

/-- Elaborate the group entries. -/
def parseGroupEntries : List (PyVal × PyVal) → Option GroupsSpec
  | [] => some []
  | (k, v) :: rest =>
      match k, parseTopics v with
      | .str g, some ts => (parseGroupEntries rest).map (fun l => (g, ts) :: l)
      | _, _ => none

/-- Elaborate a `consumer_groups` value into the typed spec used by the pipeline;
defined exactly on the shapes the validator accepts. -/
def parseGroupsSpec : PyVal → Option GroupsSpec
  | .dict entries => parseGroupEntries entries
  | _ => none

/-- One monitored instance: the configuration surface read by `check` and
`_create_kafka_client`. `zkPref` models `instance.get('zk_prefix', '')`. -/
structure Instance where
  zkConnectStr : Option String
  zkPref : String
  kafkaConsumerOffsets : Option Bool
  tags : List String
  monitorUnlistedConsumerGroups : Bool
  consumerGroups : Option PyVal

/-- Python truthiness of the `zk_connect_str` value (source lines 66, 78). -/
def zkTruthy : Option String → Bool
  | some s => !(s == "")
  | none => false

/-- Python truthiness of an offsets dictionary variable (source lines 102, 105, 122, 129). -/
def truthyOffsets : Option (Dict GTP Int) → Bool
  | some d => !d.isEmpty
  | none => false

/-- Length of an offsets dictionary variable, 0 when unset. -/
def offsLen : Option (Dict GTP Int) → Nat
  | some d => d.length
  | none => 0

/-- Python truthiness of the `consumer_groups` variable (source line 78). -/
def groupsFalsy : Option GroupsSpec → Bool
  | none => true
  | some d => d.isEmpty

/-- Decimal rendering of a natural number. -/
def natStr (n : Nat) : String := String.mk (natChars n)

/-- The `warn_msg % len(...)` warning (source lines 98-103), rendered on one line. -/
def overflowWarnMsg (n : Nat) : String :=
  "Discovered " ++ natStr n ++ " partition contexts - this exceeds the maximum number "
    ++ "of contexts permitted by the check. Please narrow your target by specifying "
    ++ "in your YAML what consumer groups, topics and partitions you wish to monitor."

/-- The ConfigurationError message of source lines 79-82. -/
def cfgErrMsg : String :=
  "Invalid configuration - if you are not collecting offsets from ZK you _must_ "
    ++ "specify consumer groups"

/-- The exception log line of source line 113. -/
def highwaterProblemMsg : String :=
  "There was a problem collecting the high watermark offsets"

/-- Python tuple comparison `v >= (0, 8, 2)` (source line 89). -/
def tupleGe : List Nat → List Nat → Bool
  | _, [] => true
  | [], _ :: _ => false
  | a :: as, b :: bs => if a > b then true else if a < b then false else tupleGe as bs

/-- Per-topic union over the current consumer-group spec, `topics[topic].update(partitions)`
(source lines 92-96); `iteritems(None)` and `update(None)` raise TypeError. -/
def topicsFallbackTopics : List (String × PartitionsSpec) → Dict String (List Int) →
    Except PyErr (Dict String (List Int))
  | [], acc => .ok acc
  | (_, none) :: _, _ => .error (.typeError "argument of type NoneType is not iterable")
  | (t, some ps) :: rest, acc =>
      topicsFallbackTopics rest (dinsert acc t (sunion ((dlookup acc t).getD []) ps))

/-- Outer loop of the fallback of source lines 92-96. -/
def topicsFallbackGo : List (String × Option TopicsSpec) → Dict String (List Int) →
    Except PyErr (Dict String (List Int))
  | [], acc => .ok acc
  | (_, none) :: _, _ => .error (.typeError "argument of type NoneType is not iterable")
  | (_, some tps) :: rest, acc =>
      match topicsFallbackTopics tps acc with
      | .error e => .error e
      | .ok acc2 => topicsFallbackGo rest acc2

/-- The fallback of source lines 92-96 over the `consumer_groups` variable. -/
def topicsFallback : Option GroupsSpec → Except PyErr (Dict String (List Int))
  | none => .error (.typeError "argument of type NoneType is not iterable")
  | some groups => topicsFallbackGo groups []

/-- Source lines 92-96: the topics handed to the high-water fetch are the
broker-internal mapping when it is nonempty (`if not topics:` fails), and only
otherwise the per-topic union over the current consumer-group spec. -/
def accumulateTopics (kafkaTopics : Dict String (List Int))
    (consumer_groups : Option GroupsSpec) : Except PyErr (Dict String (List Int)) :=
  if kafkaTopics.isEmpty then topicsFallback consumer_groups else .ok kafkaTopics

/-- Outcome of the discovery part of `check` (source lines 41-96 up to the limit
checks): the effects and error so far, the `consumer_groups` local variable, the typed
contents of the instance's `consumer_groups` object after the in-place mutations of
coordination-store discovery (Python aliasing: `_get_zk_consumer_offsets` receives and
mutates the instance's own dictionary), the two offsets collections, and the
broker-internal topics map. -/
structure DiscoverOut where
  effects : List Effect
  err : Option PyErr
  consumerGroupsVar : Option GroupsSpec
  instanceGroupsAfter : Option GroupsSpec
  zkOffsets : Option (Dict GTP Int)
  kafkaOffsets : Option (Dict GTP Int)
  topics : Dict String (List Int)

/-- Broker-internal part of discovery (source lines 71-96): the client metadata
refresh of line 74, the missing-groups ConfigurationError of lines 76-82, the protocol
version gate of line 89, and the offsets fetch of line 90. -/
def check_discover_kafka (cw : ClusterWorld) (kw : KafkaWorld) (inst : Instance)
    (getKCO : Bool) (effs : List Effect) (zkOffsets : Option (Dict GTP Int))
    (consumer_groups : Option GroupsSpec) (instAfter : Option GroupsSpec) : DiscoverOut :=
  let effs := effs ++ [Effect.netMetadataRefresh]
  if getKCO then
    if !(zkTruthy inst.zkConnectStr) && groupsFalsy consumer_groups then
      ⟨effs, some (.configurationError cfgErrMsg), consumer_groups, instAfter,
        zkOffsets, none, []⟩
    else if tupleGe cw.apiVersion [0, 8, 2] then
      match consumer_groups with
      | none =>
          ⟨effs, some (.typeError "argument of type NoneType is not iterable"),
            none, instAfter, zkOffsets, none, []⟩
      | some groups =>
          match get_kafka_consumer_offsets cw kw groups with
          | (effs2, .error e) =>
              ⟨effs ++ effs2, some e, some groups, instAfter, zkOffsets, none, []⟩
          | (effs2, .ok (coffs, topics)) =>
              ⟨effs ++ effs2, none, some groups, instAfter, zkOffsets, some coffs, topics⟩
    else ⟨effs, none, consumer_groups, instAfter, zkOffsets, none, []⟩
  else ⟨effs, none, consumer_groups, instAfter, zkOffsets, none, []⟩

/-- Discovery part of `check` (source lines 41-96): read the instance configuration,
validate any explicit consumer groups (AssertionError on an invalid shape, before any
network access), run coordination-store discovery when a connect string is configured
(its exception propagates and aborts the cycle; the instance's spec object keeps the
mutations made so far), then run broker-internal discovery. -/
def check_discover (zw : ZkWorld) (cw : ClusterWorld) (kw : KafkaWorld)
    (inst : Instance) : DiscoverOut :=
  let getKCO := match inst.kafkaConsumerOffsets with
    | some b => b
    | none => inst.zkConnectStr.isNone
  let origParsed : Option GroupsSpec := match inst.consumerGroups with
    | some v => parseGroupsSpec v
    | none => none
  let validationFailed : Bool :=
    !inst.monitorUnlistedConsumerGroups &&
      (match inst.consumerGroups with
       | some v => !(validate_explicit_consumer_groups v)
       | none => false)
  if validationFailed then
    ⟨[], some .assertionError, none, origParsed, none, none, []⟩
  else
    let consumerGroups0 : Option GroupsSpec :=
      if inst.monitorUnlistedConsumerGroups then none else origParsed
    let fromInstance : Bool :=
      !inst.monitorUnlistedConsumerGroups && inst.consumerGroups.isSome
    if zkTruthy inst.zkConnectStr then
      let zr := get_zk_consumer_offsets zw consumerGroups0 inst.zkPref
      let instAfter := if fromInstance then some zr.groups else origParsed
      match zr.err with
      | some e => ⟨zr.effects, some e, consumerGroups0, instAfter, none, none, []⟩
      | none =>
          check_discover_kafka cw kw inst getKCO zr.effects (some zr.offsets)
            (some zr.groups) instAfter
    else
      check_discover_kafka cw kw inst getKCO [] none consumerGroups0 origParsed

/-- Reporting part of `check` (source lines 98-135): the two per-source context-limit
checks (each source's count compared separately, each aborting with only a warning),
the high-water fetch (a failure logs and returns, emitting nothing further), the
per-partition broker-offset gauges, and one reporting pass per offsets source with its
source tag. -/
def check_report (cw : ClusterWorld) (context_limit : Nat) (custom_tags : List String)
    (zkOffsets kafkaOffsets : Option (Dict GTP Int)) (topics : Dict String (List Int)) :
    List Effect × Option PyErr :=
  if truthyOffsets zkOffsets && decide (offsLen zkOffsets > context_limit) then
    ([Effect.logWarn (overflowWarnMsg (offsLen zkOffsets))], none)
  else if truthyOffsets kafkaOffsets && decide (offsLen kafkaOffsets > context_limit) then
    ([Effect.logWarn (overflowWarnMsg (offsLen kafkaOffsets))], none)
  else
    match get_broker_offsets cw topics with
    | (effsB, .error _) => (effsB ++ [Effect.logException highwaterProblemMsg], none)
    | (effsB, .ok (hw, unled)) =>
        let brokerGauges := hw.map (fun kv =>
          Effect.gauge "kafka.broker_offset" kv.2
            (["topic:" ++ kv.1.1, "partition:" ++ intStr kv.1.2] ++ custom_tags))
        let zkReport := match zkOffsets with
          | some d =>
              if d.isEmpty then []
              else report_consumer_metrics hw d unled (custom_tags ++ ["source:zk"])
          | none => []
        let kafkaReport := match kafkaOffsets with
          | some d =>
              if d.isEmpty then []
              else report_consumer_metrics hw d unled (custom_tags ++ ["source:kafka"])
          | none => []
        (effsB ++ brokerGauges ++ zkReport ++ kafkaReport, none)

/-- Outcome of one full `check` cycle: its effect trace, the exception that propagated
out (if any), and the typed contents of the instance's `consumer_groups` object after
the cycle. -/
structure CheckOut where
  effects : List Effect
  err : Option PyErr
  instanceGroupsAfter : Option GroupsSpec

/-- Source `check` (lines 41-135): discovery, the topics fallback of lines 92-96, the
context-limit checks and the reporting stage. -/
def check (zw : ZkWorld) (cw : ClusterWorld) (kw : KafkaWorld) (context_limit : Nat)
    (inst : Instance) : CheckOut :=
  let d := check_discover zw cw kw inst
  match d.err with
  | some e => ⟨d.effects, some e, d.instanceGroupsAfter⟩
  | none =>
      match accumulateTopics d.topics d.consumerGroupsVar with
      | .error e => ⟨d.effects, some e, d.instanceGroupsAfter⟩
      | .ok topics =>
          let r := check_report cw context_limit inst.tags d.zkOffsets d.kafkaOffsets topics
          ⟨d.effects ++ r.1, r.2, d.instanceGroupsAfter⟩

/-- Recognize an anomaly event with the given aggregation key. -/
def isNegLagEventKeyed (k : String) : Effect → Bool
  | .event _ _ _ _ ak _ => ak == k
  | _ => false

/-- Instance for the C2 counterexample: both offset sources enabled for group g1 on
(t, 0). -/
def inst2 : Instance where
  zkConnectStr := some "zk:2181"
  zkPref := ""
  kafkaConsumerOffsets := some true
  tags := []
  monitorUnlistedConsumerGroups := false
  consumerGroups := some (PyVal.dict [(PyVal.str "g1",
    PyVal.dict [(PyVal.str "t", PyVal.list [PyVal.int 0])])])

/-- Coordination store for the C2 counterexample: committed offset 160. -/
def zw2 : ZkWorld where
  children := fun _ => ZkChildren.noNode
  getNode := fun p =>
    if p = "/consumers/g1/offsets/t/0/" then ZkGet.ok "160" else ZkGet.noNode

/-- Cluster for the C2 counterexample: high-water mark 150. -/
def cw2 : ClusterWorld where
  availablePartitionsForTopic := fun _ => []
  leaderForPartition := fun _ => some 1
  apiVersion := [0, 10, 2]
  offsetsOutcome := fun _ _ => HWOutcome.noError [150]

/-- Broker offsets for the C2 counterexample: committed offset 160. -/
def kw2 : KafkaWorld where
  coordinatorFor := fun _ => .ok (some 3)
  offsetFetch := fun _ _ => .ok [("t", [(0, 160, 0)])]

/-- Counterexample for C2: with both sources enabled and the same (g1, t, 0) negative
by both, one cycle emits TWO anomaly events with deduplication key g1:t:0 (one per
source, differing only in the source tag), not exactly one per triple per cycle. -/
theorem c2_counterexample :
    ((check zw2 cw2 kw2 100 inst2).effects.filter
      (isNegLagEventKeyed (negLagKey "g1" "t" 0))).length = 2 ∧
    (check zw2 cw2 kw2 100 inst2).err = none :=
  ⟨rfl, rfl⟩

/-- C3 (amended): the check compares each source's committed-offset count separately
against the context limit; whichever nonempty source first exceeds it aborts the
reporting stage with zero gauges and zero events, emitting only a warning naming that
source's own count. The sum of the two counts is never compared against the limit
(the counterexample exercises a cycle whose total is limit + 1 yet reports fully). -/
theorem c3_per_source_context_limit (cw : ClusterWorld) (context_limit : Nat)
    (custom_tags : List String) (zkO kafkaO : Option (Dict GTP Int))
    (topics : Dict String (List Int)) :
    ((truthyOffsets zkO && decide (offsLen zkO > context_limit)) = true →
      check_report cw context_limit custom_tags zkO kafkaO topics =
        ([Effect.logWarn (overflowWarnMsg (offsLen zkO))], none)) ∧
    ((truthyOffsets zkO && decide (offsLen zkO > context_limit)) = false →
      (truthyOffsets kafkaO && decide (offsLen kafkaO > context_limit)) = true →
      check_report cw context_limit custom_tags zkO kafkaO topics =
        ([Effect.logWarn (overflowWarnMsg (offsLen kafkaO))], none)) := by
  constructor
  · intro h
    simp [check_report, h]
  · intro h1 h2
    simp [check_report, h1, h2]

/-- Witness for the amended C3: three coordination-store offsets against a limit of 2
abort with only the overflow warning; likewise for the broker-internal source. -/
theorem c3_per_source_context_limit_witness :
    ((truthyOffsets (some [(("g", "t", 0), 1), (("g", "t", 1), 2), (("g", "t", 2), 3)])
        && decide (offsLen (some [(("g", "t", 0), 1), (("g", "t", 1), 2), (("g", "t", 2), 3)]) > 2)) = true ∧
      check_report cw2 2 [] (some [(("g", "t", 0), 1), (("g", "t", 1), 2), (("g", "t", 2), 3)]) none [] =
        ([Effect.logWarn (overflowWarnMsg 3)], none)) ∧
    (check_report cw2 2 [] none (some [(("g", "t", 0), 1), (("g", "t", 1), 2), (("g", "t", 2), 3)]) [] =
        ([Effect.logWarn (overflowWarnMsg 3)], none)) := by
  refine ⟨⟨by decide, ?_⟩, ?_⟩
  · exact (c3_per_source_context_limit cw2 2 []
      (some [(("g", "t", 0), 1), (("g", "t", 1), 2), (("g", "t", 2), 3)]) none []).1 (by decide)
  · exact (c3_per_source_context_limit cw2 2 [] none
      (some [(("g", "t", 0), 1), (("g", "t", 1), 2), (("g", "t", 2), 3)]) []).2 (by decide) (by decide)

/-- Instance for the C3 counterexample: both sources enabled for group g on t. -/
def inst3 : Instance where
  zkConnectStr := some "zk:2181"
  zkPref := ""
  kafkaConsumerOffsets := some true
  tags := []
  monitorUnlistedConsumerGroups := false
  consumerGroups := some (PyVal.dict [(PyVal.str "g",
    PyVal.dict [(PyVal.str "t", PyVal.list [PyVal.int 0, PyVal.int 1])])])

/-- Coordination store for the C3 counterexample: two committed offsets. -/
def zw3 : ZkWorld where
  children := fun _ => ZkChildren.noNode
  getNode := fun p =>
    if p = "/consumers/g/offsets/t/0/" then ZkGet.ok "5"
    else if p = "/consumers/g/offsets/t/1/" then ZkGet.ok "6"
    else ZkGet.noNode

/-- Cluster for the C3 counterexample. -/
def cw3 : ClusterWorld where
  availablePartitionsForTopic := fun _ => []
  leaderForPartition := fun _ => some 1
  apiVersion := [0, 10, 2]
  offsetsOutcome := fun _ _ => HWOutcome.noError [100]

/-- Broker offsets for the C3 counterexample: one committed offset. -/
def kw3 : KafkaWorld where
  coordinatorFor := fun _ => .ok (some 7)
  offsetFetch := fun _ _ => .ok [("t", [(0, 5, 0)])]

/-- Counterexample for C3: with ContextBudget 2, the two sources hold 2 and 1
committed offsets — 3 = ContextBudget + 1 across both sources — yet the cycle does
not abort: it completes without error and emits gauges (here the broker-offset
gauge), because each source is compared against the limit separately. -/
theorem c3_counterexample :
    offsLen (check_discover zw3 cw3 kw3 inst3).zkOffsets = 2 ∧
    offsLen (check_discover zw3 cw3 kw3 inst3).kafkaOffsets = 1 ∧
    (check zw3 cw3 kw3 2 inst3).err = none ∧
    Effect.gauge "kafka.broker_offset" 100 ["topic:t", "partition:0"] ∈
      (check zw3 cw3 kw3 2 inst3).effects :=
  ⟨rfl, rfl, rfl, by decide⟩

/-- C6 (amended): the topics set handed to the high-water fetch is the broker-internal
mapping alone whenever that mapping is nonempty — topics and partitions of the other
enabled mappings are not unioned in; only when the broker-internal mapping is empty is
the per-topic union over the current consumer-group spec used. -/
theorem c6_kafka_topics_replace (kafkaTopics : Dict String (List Int))
    (consumer_groups : Option GroupsSpec) :
    (kafkaTopics.isEmpty = false →
      accumulateTopics kafkaTopics consumer_groups = .ok kafkaTopics) ∧
    (kafkaTopics.isEmpty = true →
      accumulateTopics kafkaTopics consumer_groups = topicsFallback consumer_groups) := by
  constructor <;> intro h <;> simp [accumulateTopics, h]

/-- Witness for the amended C6. -/
theorem c6_kafka_topics_replace_witness :
    (([("t", [0])] : Dict String (List Int)).isEmpty = false ∧
      accumulateTopics [("t", [0])] (some [("g", some [("t", some [0, 1])])]) =
        .ok [("t", [0])]) ∧
    (([] : Dict String (List Int)).isEmpty = true ∧
      accumulateTopics [] (some [("g", some [("t", some [0, 1])])]) =
        topicsFallback (some [("g", some [("t", some [0, 1])])])) :=
  ⟨⟨by decide, (c6_kafka_topics_replace [("t", [0])]
      (some [("g", some [("t", some [0, 1])])])).1 (by decide)⟩,
   ⟨by decide, (c6_kafka_topics_replace []
      (some [("g", some [("t", some [0, 1])])])).2 (by decide)⟩⟩

/-- Instance for the C6 counterexample: explicit partitions [0, 1], broker-internal
collection enabled (no coordination store). -/
def inst6 : Instance where
  zkConnectStr := none
  zkPref := ""
  kafkaConsumerOffsets := none
  tags := []
  monitorUnlistedConsumerGroups := false
  consumerGroups := some (PyVal.dict [(PyVal.str "g",
    PyVal.dict [(PyVal.str "t", PyVal.list [PyVal.int 0, PyVal.int 1])])])

/-- Unused coordination store for C6. -/
def zw6 : ZkWorld where
  children := fun _ => ZkChildren.noNode
  getNode := fun _ => ZkGet.noNode

/-- Cluster for the C6 counterexample. -/
def cw6 : ClusterWorld where
  availablePartitionsForTopic := fun _ => []
  leaderForPartition := fun _ => some 1
  apiVersion := [0, 10, 2]
  offsetsOutcome := fun _ _ => HWOutcome.noError [100]

/-- Broker offsets for the C6 counterexample: only partition 0 has a committed offset. -/
def kw6 : KafkaWorld where
  coordinatorFor := fun _ => .ok (some 7)
  offsetFetch := fun _ _ => .ok [("t", [(0, 5, 0)])]

/-- Counterexample for C6: the explicit configuration maps t to partitions {0, 1}, but
the set accumulated for the high-water fetch is {t: [0]} — only the partitions whose
broker-internal committed offsets were fetched — so partition 1 of the enabled
explicit mapping is dropped, not unioned in (the per-topic union would be {t: [0, 1]}). -/
theorem c6_counterexample :
    (check_discover zw6 cw6 kw6 inst6).err = none ∧
    (check_discover zw6 cw6 kw6 inst6).topics = [("t", [0])] ∧
    accumulateTopics (check_discover zw6 cw6 kw6 inst6).topics
      (check_discover zw6 cw6 kw6 inst6).consumerGroupsVar = .ok [("t", [0])] ∧
    topicsFallback (some [("g", some [("t", some [0, 1])])]) = .ok [("t", [0, 1])] :=
  ⟨rfl, rfl, rfl, rfl⟩

lemma check_discover_kafka_instAfter (cw : ClusterWorld) (kw : KafkaWorld)
    (inst : Instance) (getKCO : Bool) (effs : List Effect)
    (zkOffsets : Option (Dict GTP Int)) (cg instAfter : Option GroupsSpec) :
    (check_discover_kafka cw kw inst getKCO effs zkOffsets cg instAfter).instanceGroupsAfter
      = instAfter := by
  unfold check_discover_kafka
  repeat' split
  all_goals rfl

lemma check_instanceGroupsAfter (zw : ZkWorld) (cw : ClusterWorld) (kw : KafkaWorld)
    (context_limit : Nat) (inst : Instance) :
    (check zw cw kw context_limit inst).instanceGroupsAfter =
      (check_discover zw cw kw inst).instanceGroupsAfter := by
  unfold check
  cases herr : (check_discover zw cw kw inst).err with
  | some e => simp [herr]
  | none =>
      cases hacc : accumulateTopics (check_discover zw cw kw inst).topics
          (check_discover zw cw kw inst).consumerGroupsVar with
      | error e => simp [herr, hacc]
      | ok topics => simp [herr, hacc]

/-- C9 (amended): an explicitly specified consumer-group spec with an invalid shape
makes the check raise AssertionError — not ConfigurationError — before any network
effect and with nothing emitted; requesting broker-internal offsets with no consumer
groups specified and coordination-store discovery disabled raises ConfigurationError
with nothing emitted, but only after the client metadata refresh network call. -/
theorem c9_config_validation (zw : ZkWorld) (cw : ClusterWorld) (kw : KafkaWorld)
    (context_limit : Nat) :
    (∀ (inst : Instance) (v : PyVal),
      inst.monitorUnlistedConsumerGroups = false →
      inst.consumerGroups = some v →
      validate_explicit_consumer_groups v = false →
      (check zw cw kw context_limit inst).effects = [] ∧
      (check zw cw kw context_limit inst).err = some PyErr.assertionError) ∧
    (∀ inst : Instance,
      inst.monitorUnlistedConsumerGroups = false →
      inst.consumerGroups = none →
      zkTruthy inst.zkConnectStr = false →
      (match inst.kafkaConsumerOffsets with
        | some b => b
        | none => inst.zkConnectStr.isNone) = true →
      (check zw cw kw context_limit inst).effects = [Effect.netMetadataRefresh] ∧
      (check zw cw kw context_limit inst).err =
        some (PyErr.configurationError cfgErrMsg)) := by
  constructor
  · intro inst v hmu hcg hval
    constructor <;>
      simp [check, check_discover, hmu, hcg, hval]
  · intro inst hmu hcg hzk hk
    constructor <;>
      simp [check, check_discover, check_discover_kafka, hmu, hcg, hzk, hk, groupsFalsy]

/-- Trivial coordination store for the C9 inputs. -/
def zw9 : ZkWorld where
  children := fun _ => ZkChildren.noNode
  getNode := fun _ => ZkGet.noNode

/-- Trivial cluster for the C9 inputs. -/
def cw9 : ClusterWorld where
  availablePartitionsForTopic := fun _ => []
  leaderForPartition := fun _ => some 1
  apiVersion := [0, 10, 2]
  offsetsOutcome := fun _ _ => HWOutcome.noError [100]

/-- Trivial broker-offsets world for the C9 inputs. -/
def kw9 : KafkaWorld where
  coordinatorFor := fun _ => .ok (some 7)
  offsetFetch := fun _ _ => .ok []

/-- Instance with an invalid consumer-group spec shape: the topics value of group g is
the integer 5 (neither a dict nor None). -/
def inst9 : Instance where
  zkConnectStr := none
  zkPref := ""
  kafkaConsumerOffsets := some true
  tags := []
  monitorUnlistedConsumerGroups := false
  consumerGroups := some (PyVal.dict [(PyVal.str "g", PyVal.int 5)])

/-- Counterexample for C9: an explicitly specified consumer-group spec with an invalid
shape raises AssertionError, not the ConfigurationError the claim requires. -/
theorem c9_counterexample :
    (check zw9 cw9 kw9 100 inst9).err = some PyErr.assertionError ∧
    (check zw9 cw9 kw9 100 inst9).effects = [] :=
  ⟨rfl, rfl⟩

/-- Instance with no consumer groups, no coordination store, broker-internal offsets
requested. -/
def inst9b : Instance where
  zkConnectStr := none
  zkPref := ""
  kafkaConsumerOffsets := some true
  tags := []
  monitorUnlistedConsumerGroups := false
  consumerGroups := none

/-- Witness for the amended C9 at the two concrete instances. -/
theorem c9_config_validation_witness :
    ((check zw9 cw9 kw9 100 inst9).effects = [] ∧
      (check zw9 cw9 kw9 100 inst9).err = some PyErr.assertionError) ∧
    ((check zw9 cw9 kw9 100 inst9b).effects = [Effect.netMetadataRefresh] ∧
      (check zw9 cw9 kw9 100 inst9b).err = some (PyErr.configurationError cfgErrMsg)) :=
  ⟨(c9_config_validation zw9 cw9 kw9 100).1 inst9 (PyVal.dict [(PyVal.str "g", PyVal.int 5)])
      rfl rfl rfl,
   (c9_config_validation zw9 cw9 kw9 100).2 inst9b rfl rfl rfl rfl⟩

/-- C10 (amended): coordination-store discovery mutates the externally-configured spec
in place. When the instance supplies consumer groups (with unlisted-group monitoring
off, the spec valid, and the store enabled), the instance's `consumer_groups` object
after the cycle holds exactly the groups value left by `_get_zk_consumer_offsets`:
discovered topic and partition lists are baked into the configured spec, and a
subsequent cycle starts from that augmented spec rather than from the spec the user
configured. -/
theorem c10_discovery_mutates_spec (zw : ZkWorld) (cw : ClusterWorld) (kw : KafkaWorld)
    (context_limit : Nat) (inst : Instance) (v : PyVal) (spec : GroupsSpec)
    (hmu : inst.monitorUnlistedConsumerGroups = false)
    (hcg : inst.consumerGroups = some v)
    (hval : validate_explicit_consumer_groups v = true)
    (hparse : parseGroupsSpec v = some spec)
    (hzk : zkTruthy inst.zkConnectStr = true) :
    (check zw cw kw context_limit inst).instanceGroupsAfter =
      some (get_zk_consumer_offsets zw (some spec) inst.zkPref).groups := by
  rw [check_instanceGroupsAfter]
  unfold check_discover
  simp only [hmu, hcg, hval, hparse, hzk, Bool.not_false, Bool.not_true, Bool.false_and,
    Bool.and_self, Bool.true_and, Bool.and_true, Option.isSome_some, if_false, if_true,
    Bool.not_eq_true', reduceIte]
  cases hze : (get_zk_consumer_offsets zw (some spec) inst.zkPref).err with
  | some e => simp [hze]
  | none => simp [hze, check_discover_kafka_instAfter]

/-- Instance for C10: the user configures group g with topic t and unspecified
partitions. -/
def inst10 : Instance where
  zkConnectStr := some "zk:2181"
  zkPref := ""
  kafkaConsumerOffsets := some false
  tags := []
  monitorUnlistedConsumerGroups := false
  consumerGroups := some (PyVal.dict [(PyVal.str "g",
    PyVal.dict [(PyVal.str "t", PyVal.none)])])

/-- Coordination store for C10: partition 0 with offset 5 under (g, t). -/
def zw10 : ZkWorld where
  children := fun p =>
    if p = "/consumers/g/offsets/t/" then ZkChildren.ok ["0"] else ZkChildren.noNode
  getNode := fun p =>
    if p = "/consumers/g/offsets/t/0/" then ZkGet.ok "5" else ZkGet.noNode

/-- Cluster for C10. -/
def cw10 : ClusterWorld where
  availablePartitionsForTopic := fun _ => []
  leaderForPartition := fun _ => some 1
  apiVersion := [0, 10, 2]
  offsetsOutcome := fun _ _ => HWOutcome.noError [100]

/-- Broker-offsets world for C10 (unused: broker-internal collection is disabled). -/
def kw10 : KafkaWorld where
  coordinatorFor := fun _ => .ok (some 7)
  offsetFetch := fun _ _ => .ok []

/-- Counterexample for C10: the user configured {g: {t: None}} (partitions to be
discovered at the point of use), but after one cycle the instance's spec object holds
{g: {t: [0]}} — the partition list discovered by the store was baked into the
externally-configured spec, so the next cycle does not start from the spec the user
configured. -/
theorem c10_counterexample :
    parseGroupsSpec (PyVal.dict [(PyVal.str "g", PyVal.dict [(PyVal.str "t", PyVal.none)])]) =
      some [("g", some [("t", none)])] ∧
    (check zw10 cw10 kw10 100 inst10).instanceGroupsAfter =
      some [("g", some [("t", some [0])])] ∧
    (check zw10 cw10 kw10 100 inst10).err = none :=
  ⟨rfl, rfl, rfl⟩

/-- Witness for the amended C10 at the concrete C10 inputs. -/
theorem c10_discovery_mutates_spec_witness :
    (check zw10 cw10 kw10 100 inst10).instanceGroupsAfter =
      some (get_zk_consumer_offsets zw10 (some [("g", some [("t", none)])]) "").groups :=
  c10_discovery_mutates_spec zw10 cw10 kw10 100 inst10
    (PyVal.dict [(PyVal.str "g", PyVal.dict [(PyVal.str "t", PyVal.none)])])
    [("g", some [("t", none)])] rfl rfl rfl rfl rfl
